import Mathlib

/-!
# Vita3K bootstrap (`src/emulator/main.cpp`)

A shallow embedding of the emulator entry point.  `main` is straight-line glue
around collaborators whose code lives outside `main.cpp` (SDL, `init`,
`load_vpk`, `init_thread`, `run_thread`, `::call_import`).  Their behaviour is a
parameter (`Env`); every statement `main` itself executes is written out, and
each operation is logged together with the host state it started from.  A run
that reads through a null `argv` pointer has no result.
-/

namespace Vita3K

/-! ## Data model -/

/-- Kernel object identifier (`SceUID`, a fixed-width signed integer). -/
abbrev SceUID := Int

/-- Identity of a live `ThreadState` object; a null `ThreadStatePtr` is `none`. -/
abbrev ThreadStatePtr := Nat

/-- Identity of an `SDL_Window`; a null pointer is `none`. -/
abbrev Window := Nat

/-- Guest address (`Ptr<const void>`). -/
abbrev Address := Nat

/-- Guest memory (`host.mem`); the contents are not inspected by `main`. -/
abbrev MemState := Nat

/-- File-system state (`host.io`); the contents are not inspected by `main`. -/
abbrev IOState := Nat

/-- The `ExitCode` enumeration, main.cpp:32-40. -/
inductive ExitCode where
  | Success
  | IncorrectArgs
  | SDLInitFailed
  | HostInitFailed
  | ModuleLoadFailed
  | InitThreadFailed
  | RunThreadFailed
  deriving DecidableEq, Repr

/-- Enumerator values: `Success = 0`, each later enumerator one more. -/
def ExitCode.toInt : ExitCode → Int
  | .Success => 0
  | .IncorrectArgs => 1
  | .SDLInitFailed => 2
  | .HostInitFailed => 3
  | .ModuleLoadFailed => 4
  | .InitThreadFailed => 5
  | .RunThreadFailed => 6

/-- Modelled from the spec: the Kernel registry (`host.kernel.threads`) is a
mapping from UID to thread in which a UID appears at most once; the container
declaration is not in `main.cpp`.  Entries are kept as an association list. -/
abbrev ThreadStatePtrs := List (SceUID × ThreadStatePtr)

/-- Registry lookup: the first entry stored under `uid`. -/
def ThreadStatePtrs.find (m : ThreadStatePtrs) (uid : SceUID) : Option ThreadStatePtr :=
  (List.find? (fun e => e.1 == uid) m).map Prod.snd

/-- Number of entries stored under `uid`. -/
def ThreadStatePtrs.entries (m : ThreadStatePtrs) (uid : SceUID) : Nat :=
  List.countP (fun e => e.1 == uid) m

/-- The member `emplace(uid, thread)` of a unique-key associative container
(main.cpp:103): it inserts only when no entry has the key and otherwise leaves
the container as it is. -/
def ThreadStatePtrs.emplace (m : ThreadStatePtrs) (uid : SceUID) (t : ThreadStatePtr) :
    ThreadStatePtrs :=
  if (ThreadStatePtrs.find m uid).isSome then m else m ++ [(uid, t)]

/-- The part of `host.kernel` that `main` touches. -/
structure KernelState where
  next_uid : SceUID
  threads : ThreadStatePtrs
  deriving DecidableEq, Repr

/-- Modelled from the spec: the UID invariant of the Kernel ("allocation is the
only path to obtaining one"), in the form `main` relies on: nothing is
registered under the UID that the counter hands out next. -/
def KernelState.next_uid_unregistered (k : KernelState) : Bool :=
  (k.threads.find k.next_uid).isNone

/-- The fields of `HostState` that `main` reads or writes. -/
structure HostState where
  window : Option Window
  io : IOState
  mem : MemState
  kernel : KernelState
  t1 : Nat
  deriving DecidableEq, Repr

/-- The closure object built at main.cpp:90-92.  `main_thread_id` is captured
by value; `host` is captured by reference and is the one `HostState` of `main`. -/
structure CallImport where
  main_thread_id : SceUID
  deriving DecidableEq, Repr

/-- Operations performed during a run of `main`, in program order. -/
inductive Event where
  | cout (line : String)
  | SDL_Init (flags : Nat)
  | SDL_ShowSimpleMessageBox (flags : Nat) (title : String) (message : String)
      (window : Option Window)
  | cerr (line : String)
  | HostState_ctor
  | init
  | load_vpk (path : String)
  | next_uid_post_increment (uid : SceUID)
  | init_thread (entry_point : Address) (stack_size : Nat) (log_code : Bool)
      (call_import : CallImport)
  | emplace (uid : SceUID) (thread : ThreadStatePtr)
  | SDL_GetTicks
  | assign_t1 (ticks : Nat)
  | run_thread (thread : ThreadStatePtr)
  | call_import (nid : Nat) (calling_uid : SceUID)
  | ret (code : ExitCode)
  | HostState_dtor
  | SDL_Quit
  deriving DecidableEq, Repr

/-- One logged operation with the `HostState` it started from (`none` while no
`HostState` object exists). -/
structure Step where
  ev : Event
  host : Option HostState
  deriving DecidableEq, Repr

/-- Behaviour of the code a guest thread executes, as seen from the host: it
finishes with the result of `run_thread`, changes guest memory, or invokes the
callable it was created with and continues from the host state that leaves. -/
inductive Guest where
  | done (ok : Bool) : Guest
  | mem (f : MemState → MemState) (k : Guest) : Guest
  | call (nid : Nat) (k : HostState → Guest) : Guest

/-- Collaborators of `main`; none of them is defined in `main.cpp`.  Each is
assumed to return to its caller. -/
structure Env where
  /-- The `window_title` constant of `host/version.h`. -/
  window_title : String
  /-- Return value of `SDL_Init(flags)`. -/
  SDL_Init : Nat → Int
  /-- Return value of `SDL_ShowSimpleMessageBox(flags, title, message, window)`. -/
  SDL_ShowSimpleMessageBox : Nat → String → String → Option Window → Int
  /-- The default-constructed `HostState host;`. -/
  HostState_default : HostState
  /-- The call `init(host)`: result and the host it leaves. -/
  init : HostState → Bool × HostState
  /-- The call `load_vpk(entry_point, io, mem, path)`: result, entry point, and the
  `io` and `mem` it leaves. -/
  load_vpk : IOState → MemState → String → Bool × Address × IOState × MemState
  /-- The call `init_thread(entry_point, stack_size, log_code, mem, call_import)`:
  the new thread (or null) and the `mem` it leaves.  Creating a thread runs no
  guest code, so the callable is stored, not invoked. -/
  init_thread : Address → Nat → Bool → MemState → CallImport →
    Option ThreadStatePtr × MemState
  /-- The host dispatcher `::call_import(host, nid, calling_uid)`. -/
  call_import : HostState → Nat → SceUID → HostState
  /-- Return value of `SDL_GetTicks()`. -/
  SDL_GetTicks : Nat
  /-- What the thread does when `run_thread` executes it. -/
  guest : ThreadStatePtr → Guest
  /-- Width in bits of the `SceUID` integer type. -/
  uid_bits : Nat

/-- Command line of one invocation: the strings `argv[0]`, ..., `argv[argc - 1]`.
The element after them, `argv[argc]`, is a null pointer; the list may be empty
(`argc = 0`). -/
structure Invocation where
  argv : List String
  deriving DecidableEq, Repr

/-- The `argc` parameter. -/
def Invocation.argc (inv : Invocation) : Int := (inv.argv.length : Int)

/-- The pointer `argv[i]` for `i` up to `argc`: the string it points to, or
`none` for the null pointer `argv[argc]`. -/
def Invocation.arg (inv : Invocation) (i : Nat) : Option String := inv.argv[i]?

/-- The constant `path` of main.cpp:78, which is `argv[1]`; `main` reads it only
with `argc >= 2`, where it is a string. -/
def Invocation.path (inv : Invocation) : String := (inv.arg 1).getD ""

/-- Result of a run of `main` that returns: the exit code, the operations in order, and the
`HostState` at the `return` statement (`none` if none was constructed). -/
structure Outcome where
  code : ExitCode
  trace : List Step
  host : Option HostState
  deriving DecidableEq, Repr

/-- The operations of a run without the state snapshots. -/
def Outcome.events (o : Outcome) : List Event := o.trace.map Step.ev

/-! ## Constants -/

/-- Subsystem flag of `SDL.h`. -/
def SDL_INIT_AUDIO : Nat := 0x10

/-- Subsystem flag of `SDL.h`. -/
def SDL_INIT_VIDEO : Nat := 0x20

/-- Subsystem flag of `SDL.h`. -/
def SDL_INIT_GAMECONTROLLER : Nat := 0x2000

/-- Message box flag of `SDL_messagebox.h`. -/
def SDL_MESSAGEBOX_ERROR : Nat := 0x10

/-- Modelled from the spec: the `MB` macro is not in `main.cpp`; the spec gives
the main stack as 1 MiB. -/
def MB (n : Nat) : Nat := n * 1024 * 1024

/-! ## Operations -/

/-- Two's-complement wrap of an integer to a signed type of `bits` bits. -/
def wrap_signed (bits : Nat) (x : Int) : Int :=
  (x + 2 ^ (bits - 1)) % 2 ^ bits - 2 ^ (bits - 1)

/-- The expression `host.kernel.next_uid++` (main.cpp:88): yields the old
value and stores the incremented one.  Incrementing the largest value of the
signed type is taken to wrap around. -/
def next_uid_post_increment (bits : Nat) (k : KernelState) : SceUID × KernelState :=
  (k.next_uid, { k with next_uid := wrap_signed bits (k.next_uid + 1) })

/-- The function `error(message, window)`, main.cpp:42-46. -/
def error (env : Env) (message : String) (window : Option Window)
    (host : Option HostState) : List Step :=
  if env.SDL_ShowSimpleMessageBox SDL_MESSAGEBOX_ERROR "Error" message window < 0 then
    [⟨.SDL_ShowSimpleMessageBox SDL_MESSAGEBOX_ERROR "Error" message window, host⟩,
     ⟨.cerr (message ++ "\n"), host⟩]
  else
    [⟨.SDL_ShowSimpleMessageBox SDL_MESSAGEBOX_ERROR "Error" message window, host⟩]

/-- The deleter `term_sdl`, main.cpp:48-52; it runs when `sdl` goes out of scope
holding a non-null pointer. -/
def term_sdl (host : Option HostState) : List Step := [⟨.SDL_Quit, host⟩]

/-- Body of the lambda at main.cpp:90-92 applied to `nid`: one call
`::call_import(host, nid, main_thread_id)`. -/
def CallImport.invoke (env : Env) (c : CallImport) (nid : Nat) (host : HostState) :
    HostState × List Step :=
  (env.call_import host nid c.main_thread_id,
   [⟨.call_import nid c.main_thread_id, some host⟩])

/-- The call `run_thread(*main_thread)`: executes the guest behaviour, each import
going through the callable the thread was created with. -/
def run_thread (env : Env) (c : CallImport) : Guest → HostState → Bool × HostState × List Step
  | .done ok, host => (ok, host, [])
  | .mem f k, host => run_thread env c k { host with mem := f host.mem }
  | .call nid k, host =>
    let r := c.invoke env nid host
    let rest := run_thread env c (k r.1) r.1
    (rest.1, rest.2.1, r.2 ++ rest.2.2)

/-- The function `main(argc, argv)`, main.cpp:54-112.  The result is `none` when
the run appends a null `argv` pointer to a `std::string` (main.cpp:59 with
`argc = 0`): that is undefined, the process crashes and no exit code is
returned. -/
def main (env : Env) (inv : Invocation) : Option Outcome :=
  let t0 : List Step := [⟨.cout (env.window_title ++ "\n"), none⟩]
  if inv.argc < 2 then
    match inv.arg 0 with
    | none => none
    | some argv0 =>
      let message := "Usage: " ++ argv0 ++ " <path to VPK file>"
      let t1 := t0 ++ error env message none none
      some ⟨.IncorrectArgs, t1 ++ [⟨.ret .IncorrectArgs, none⟩], none⟩
  else
    let flags := SDL_INIT_AUDIO ||| SDL_INIT_GAMECONTROLLER ||| SDL_INIT_VIDEO
    let sdl : Bool := decide (env.SDL_Init flags ≥ 0)
    let t1 := t0 ++ [⟨.SDL_Init flags, none⟩]
    if !sdl then
      let t2 := t1 ++ error env "SDL initialisation failed." none none
      some ⟨.SDLInitFailed, t2 ++ [⟨.ret .SDLInitFailed, none⟩], none⟩
    else
      let host0 := env.HostState_default
      let t2 := t1 ++ [⟨.HostState_ctor, none⟩, ⟨.init, some host0⟩]
      let i := env.init host0
      let host1 := i.2
      if !i.1 then
        let t3 := t2 ++ error env "Host initialisation failed." host1.window (some host1)
        some ⟨.HostInitFailed,
          t3 ++ [⟨.ret .HostInitFailed, some host1⟩, ⟨.HostState_dtor, some host1⟩]
            ++ term_sdl none,
          some host1⟩
      else
        match inv.arg 1 with
        | none => none
        | some path =>
          let l := env.load_vpk host1.io host1.mem path
          let entry_point := l.2.1
          let host2 : HostState := { host1 with io := l.2.2.1, mem := l.2.2.2 }
          let t3 := t2 ++ [⟨.load_vpk path, some host1⟩]
          if !l.1 then
            let message := "Failed to load \"" ++ path ++ "\"."
            let t4 := t3 ++ error env message host2.window (some host2)
            some ⟨.ModuleLoadFailed,
              t4 ++ [⟨.ret .ModuleLoadFailed, some host2⟩, ⟨.HostState_dtor, some host2⟩]
                ++ term_sdl none,
              some host2⟩
          else
            let a := next_uid_post_increment env.uid_bits host2.kernel
            let main_thread_id := a.1
            let host3 : HostState := { host2 with kernel := a.2 }
            let call_import : CallImport := ⟨main_thread_id⟩
            let stack_size := MB 1
            let log_code := false
            let t := env.init_thread entry_point stack_size log_code host3.mem call_import
            let host4 : HostState := { host3 with mem := t.2 }
            let t4 := t3 ++ [⟨.next_uid_post_increment main_thread_id, some host2⟩,
              ⟨.init_thread entry_point stack_size log_code call_import, some host3⟩]
            match t.1 with
            | none =>
              let t5 := t4 ++ error env "Failed to init main thread." host4.window (some host4)
              some ⟨.InitThreadFailed,
                t5 ++ [⟨.ret .InitThreadFailed, some host4⟩, ⟨.HostState_dtor, some host4⟩]
                  ++ term_sdl none,
                some host4⟩
            | some main_thread =>
              let host5 : HostState :=
                { host4 with kernel :=
                    { host4.kernel with
                      threads := host4.kernel.threads.emplace main_thread_id main_thread } }
              let host6 : HostState := { host5 with t1 := env.SDL_GetTicks }
              let r := run_thread env call_import (env.guest main_thread) host6
              let host7 := r.2.1
              let t5 := t4 ++ [⟨.emplace main_thread_id main_thread, some host4⟩,
                ⟨.SDL_GetTicks, some host5⟩, ⟨.assign_t1 env.SDL_GetTicks, some host5⟩,
                ⟨.run_thread main_thread, some host6⟩] ++ r.2.2
              if !r.1 then
                let t6 := t5 ++ error env "Failed to run main thread." host7.window (some host7)
                some ⟨.RunThreadFailed,
                  t6 ++ [⟨.ret .RunThreadFailed, some host7⟩, ⟨.HostState_dtor, some host7⟩]
                    ++ term_sdl none,
                  some host7⟩
              else
                some ⟨.Success,
                  t5 ++ [⟨.ret .Success, some host7⟩, ⟨.HostState_dtor, some host7⟩]
                    ++ term_sdl none,
                  some host7⟩

/-! ## Observations of a run

The values the successive statements of `main` compute, named so that
properties of a run can refer to them. -/

/-- The flags argument of the `SDL_Init` call at main.cpp:65. -/
def sdl_flags : Nat := SDL_INIT_AUDIO ||| SDL_INIT_GAMECONTROLLER ||| SDL_INIT_VIDEO

/-- Whether `init(host)` returned true (main.cpp:72). -/
def init_ok (env : Env) : Bool := (env.init env.HostState_default).1

/-- The host as `init(host)` leaves it. -/
def host_after_init (env : Env) : HostState := (env.init env.HostState_default).2

/-- The values `load_vpk` yields at main.cpp:79. -/
def load_result (env : Env) (inv : Invocation) : Bool × Address × IOState × MemState :=
  env.load_vpk (host_after_init env).io (host_after_init env).mem (inv.path)

/-- Whether `load_vpk` returned true. -/
def load_ok (env : Env) (inv : Invocation) : Bool := (load_result env inv).1

/-- The host after the `load_vpk` call. -/
def host_after_load (env : Env) (inv : Invocation) : HostState :=
  { host_after_init env with
    io := (load_result env inv).2.2.1, mem := (load_result env inv).2.2.2 }

/-- The constant `main_thread_id` of main.cpp:88. -/
def main_thread_id (env : Env) (inv : Invocation) : SceUID :=
  (next_uid_post_increment env.uid_bits (host_after_load env inv).kernel).1

/-- The host after main.cpp:88. -/
def host_after_alloc (env : Env) (inv : Invocation) : HostState :=
  { host_after_load env inv with
    kernel := (next_uid_post_increment env.uid_bits (host_after_load env inv).kernel).2 }

/-- The values `init_thread` yields at main.cpp:96. -/
def init_thread_result (env : Env) (inv : Invocation) : Option ThreadStatePtr × MemState :=
  env.init_thread (load_result env inv).2.1 (MB 1) false (host_after_alloc env inv).mem
    ⟨main_thread_id env inv⟩

/-- The handle `main_thread` of main.cpp:96 (`none` when null). -/
def main_thread (env : Env) (inv : Invocation) : Option ThreadStatePtr :=
  (init_thread_result env inv).1

/-- The host after the `init_thread` call, at the registration of main.cpp:103. -/
def host_at_emplace (env : Env) (inv : Invocation) : HostState :=
  { host_after_alloc env inv with mem := (init_thread_result env inv).2 }

/-- The host after the registration of thread `mt` at main.cpp:103. -/
def host_after_emplace (env : Env) (inv : Invocation) (mt : ThreadStatePtr) : HostState :=
  { host_at_emplace env inv with
    kernel :=
      { (host_at_emplace env inv).kernel with
        threads := (host_at_emplace env inv).kernel.threads.emplace (main_thread_id env inv) mt } }

/-- The host at the moment `run_thread` is called (main.cpp:106). -/
def host_at_run (env : Env) (inv : Invocation) (mt : ThreadStatePtr) : HostState :=
  { host_after_emplace env inv mt with t1 := env.SDL_GetTicks }

/-- What `run_thread(*main_thread)` yields for thread `mt`: its result, the host
it leaves, and the dispatcher calls made while it ran. -/
def run_result (env : Env) (inv : Invocation) (mt : ThreadStatePtr) :
    Bool × HostState × List Step :=
  run_thread env ⟨main_thread_id env inv⟩ (env.guest mt) (host_at_run env inv mt)

/-- Whether the main thread was created and `run_thread` returned true. -/
def run_ok (env : Env) (inv : Invocation) : Bool :=
  match main_thread env inv with
  | none => false
  | some mt => (run_result env inv mt).1

/-- The operations of main.cpp:55-96 on a run that reaches `init_thread`. -/
def steps_to_init_thread (env : Env) (inv : Invocation) : List Step :=
  [⟨.cout (env.window_title ++ "\n"), none⟩,
   ⟨.SDL_Init sdl_flags, none⟩,
   ⟨.HostState_ctor, none⟩,
   ⟨.init, some env.HostState_default⟩,
   ⟨.load_vpk (inv.path), some (host_after_init env)⟩,
   ⟨.next_uid_post_increment (main_thread_id env inv), some (host_after_load env inv)⟩,
   ⟨.init_thread (load_result env inv).2.1 (MB 1) false ⟨main_thread_id env inv⟩,
     some (host_after_alloc env inv)⟩]

/-- The operations of main.cpp:103-106 for thread `mt`, up to the call of
`run_thread`. -/
def steps_register_and_run (env : Env) (inv : Invocation) (mt : ThreadStatePtr) : List Step :=
  [⟨.emplace (main_thread_id env inv) mt, some (host_at_emplace env inv)⟩,
   ⟨.SDL_GetTicks, some (host_after_emplace env inv mt)⟩,
   ⟨.assign_t1 env.SDL_GetTicks, some (host_after_emplace env inv mt)⟩,
   ⟨.run_thread mt, some (host_at_run env inv mt)⟩]

/-- The end of a run that constructed a `HostState`: the `return`, then the
destructors of `host` and `sdl`. -/
def steps_return (code : ExitCode) (host : HostState) : List Step :=
  [⟨.ret code, some host⟩, ⟨.HostState_dtor, some host⟩, ⟨.SDL_Quit, none⟩]

/-- Exit code worded as the ordinal of the first bootstrap stage that fails. -/
def first_failed_stage (env : Env) (inv : Invocation) : Int :=
  if inv.argc < 2 then 1
  else if env.SDL_Init sdl_flags < 0 then 2
  else if init_ok env = false then 3
  else if load_ok env inv = false then 4
  else if main_thread env inv = none then 5
  else if run_ok env inv = false then 6
  else 0

/-- Whether an operation shows the message of an `error` call. -/
def Event.is_message_box : Event → Bool
  | .SDL_ShowSimpleMessageBox _ _ _ _ => true
  | _ => false

/-- Whether an operation brings up platform or runtime state: platform
initialisation, construction or initialisation of `HostState`, the loader, UID
allocation, thread creation, registration, tick sampling, running a thread or a
dispatch. -/
def Event.builds_runtime_state : Event → Bool
  | .cout _ => false
  | .SDL_ShowSimpleMessageBox _ _ _ _ => false
  | .cerr _ => false
  | .ret _ => false
  | _ => true

/-- Whether an operation allocates a UID, creates, registers or runs a thread. -/
def Event.is_thread_activity : Event → Bool
  | .next_uid_post_increment _ => true
  | .init_thread _ _ _ _ => true
  | .emplace _ _ => true
  | .run_thread _ => true
  | .call_import _ _ => true
  | _ => false

/-- The UIDs returned by `n` successive evaluations of `next_uid++`, oldest
first, and the kernel state they leave. -/
def allocate_uids (bits : Nat) : Nat → KernelState → List SceUID × KernelState
  | 0, k => ([], k)
  | n + 1, k =>
    let a := next_uid_post_increment bits k
    let rest := allocate_uids bits n a.2
    (a.1 :: rest.1, rest.2)

/-! ## Sample collaborators -/

/-- A default-constructed host: no window, nothing registered. -/
def sample_host : HostState := ⟨none, 0, 0, ⟨0, []⟩, 0⟩

/-- Collaborators that all succeed; `init` opens window 1 and leaves the
registry empty; the guest makes one import call and finishes. -/
def sample_env : Env where
  window_title := "Vita3K"
  SDL_Init := fun _ => 0
  SDL_ShowSimpleMessageBox := fun _ _ _ _ => 0
  HostState_default := sample_host
  init := fun h => (true, { h with window := some 1 })
  load_vpk := fun io mem _ => (true, 0x81000000, io, mem + 1)
  init_thread := fun _ _ _ mem _ => (some 9, mem + 1)
  call_import := fun h _ _ => h
  SDL_GetTicks := 5
  guest := fun _ => .call 0x1234 (fun _ => .done true)
  uid_bits := 32

/-- As `sample_env`, but the guest run fails. -/
def sample_env_run_fails : Env :=
  { sample_env with guest := fun _ => .call 0x1234 (fun _ => .done false) }

/-- As `sample_env`, but the loader fails and the message box cannot be shown. -/
def sample_env_load_fails : Env :=
  { sample_env with
    load_vpk := fun io mem _ => (false, 0, io, mem)
    SDL_ShowSimpleMessageBox := fun _ _ _ _ => -1 }

/-- As `sample_env`, but `init` leaves thread 7 registered under UID 0, the
value of `next_uid`. -/
def sample_env_taken : Env :=
  { sample_env with
    init := fun h => (true, { h with window := some 1, kernel := ⟨0, [(0, 7)]⟩ }) }

/-- As `sample_env_taken`, but the guest run fails. -/
def sample_env_taken_run_fails : Env :=
  { sample_env_taken with guest := fun _ => .done false }

/-- As `sample_env_run_fails`, but the dispatcher empties the registry. -/
def sample_env_reaping : Env :=
  { sample_env_run_fails with
    call_import := fun h _ _ => { h with kernel := { h.kernel with threads := [] } } }

/-- As `sample_env_run_fails`, but the dispatcher empties the registry on every import
other than `0x1234`, the one the sample guest calls. -/
def sample_env_selective : Env :=
  { sample_env_run_fails with
    call_import := fun h nid _ =>
      if nid = 0x1234 then h else { h with kernel := { h.kernel with threads := [] } } }

/-- An invocation naming a package. -/
def sample_invocation : Invocation := ⟨["vita3k", "game.vpk"]⟩

/-- An invocation without arguments. -/
def sample_invocation_bare : Invocation := ⟨["vita3k"]⟩

/-- An invocation with `argc = 0`: `argv[0]` is the null pointer. -/
def sample_invocation_empty : Invocation := ⟨[]⟩

/-- A kernel state whose 32-bit `next_uid` holds the largest value. -/
def sample_kernel_full : KernelState := ⟨2147483647, []⟩

/-! ## The command line -/

/-- With `argc >= 2` the pointer `argv[1]` is a string, the constant `path`. -/
theorem arg_one (inv : Invocation) (h : ¬ inv.argc < 2) : inv.arg 1 = some inv.path := by
  rcases inv with ⟨argv⟩
  match argv with
  | [] => simp [Invocation.argc] at h
  | [_] => simp [Invocation.argc] at h
  | _ :: p :: _ => simp [Invocation.arg, Invocation.path]

/-- The pointer `argv[0]` is null exactly when `argc = 0`. -/
theorem arg_zero_eq_none_iff (inv : Invocation) : inv.arg 0 = none ↔ inv.argv = [] := by
  rcases inv with ⟨argv⟩
  cases argv <;> simp [Invocation.arg]

/-! ## The paths through `main` -/

theorem main_null_argv (env : Env) (inv : Invocation) (h : inv.argv = []) :
    main env inv = none := by
  have h2 : inv.argc < 2 := by simp [Invocation.argc, h]
  have h0 : inv.arg 0 = none := (arg_zero_eq_none_iff inv).2 h
  simp [main, h2, h0]

theorem main_IncorrectArgs (env : Env) (inv : Invocation) (argv0 : String)
    (h : inv.argc < 2) (ha : inv.arg 0 = some argv0) :
    main env inv =
      some ⟨.IncorrectArgs,
        [⟨.cout (env.window_title ++ "\n"), none⟩]
          ++ error env ("Usage: " ++ argv0 ++ " <path to VPK file>") none none
          ++ [⟨.ret .IncorrectArgs, none⟩],
        none⟩ := by
  simp [main, h, ha]

theorem main_SDLInitFailed (env : Env) (inv : Invocation) (h : ¬ inv.argc < 2)
    (hs : env.SDL_Init sdl_flags < 0) :
    main env inv =
      some ⟨.SDLInitFailed,
        [⟨.cout (env.window_title ++ "\n"), none⟩, ⟨.SDL_Init sdl_flags, none⟩]
          ++ error env "SDL initialisation failed." none none
          ++ [⟨.ret .SDLInitFailed, none⟩],
        none⟩ := by
  have hs2 : ¬ (0 ≤ env.SDL_Init ( SDL_INIT_AUDIO ||| SDL_INIT_GAMECONTROLLER ||| SDL_INIT_VIDEO)) := by
    simpa [sdl_flags] using hs
  simp [main, h, hs2, sdl_flags]

theorem main_HostInitFailed (env : Env) (inv : Invocation) (h : ¬ inv.argc < 2)
    (hs : ¬ env.SDL_Init sdl_flags < 0) (hi : init_ok env = false) :
    main env inv =
      some ⟨.HostInitFailed,
        [⟨.cout (env.window_title ++ "\n"), none⟩, ⟨.SDL_Init sdl_flags, none⟩,
          ⟨.HostState_ctor, none⟩, ⟨.init, some env.HostState_default⟩]
          ++ error env "Host initialisation failed." (host_after_init env).window
            (some (host_after_init env))
          ++ steps_return .HostInitFailed (host_after_init env),
        some (host_after_init env)⟩ := by
  have hs2 : 0 ≤ env.SDL_Init ( SDL_INIT_AUDIO ||| SDL_INIT_GAMECONTROLLER ||| SDL_INIT_VIDEO) := by
    simpa [sdl_flags] using hs
  simp only [init_ok] at hi
  simp [main, h, hs2, hi, sdl_flags, host_after_init, steps_return, term_sdl]

theorem main_ModuleLoadFailed (env : Env) (inv : Invocation) (h : ¬ inv.argc < 2)
    (hs : ¬ env.SDL_Init sdl_flags < 0) (hi : init_ok env = true)
    (hl : load_ok env inv = false) :
    main env inv =
      some ⟨.ModuleLoadFailed,
        [⟨.cout (env.window_title ++ "\n"), none⟩, ⟨.SDL_Init sdl_flags, none⟩,
          ⟨.HostState_ctor, none⟩, ⟨.init, some env.HostState_default⟩,
          ⟨.load_vpk inv.path, some (host_after_init env)⟩]
          ++ error env ("Failed to load \"" ++ inv.path ++ "\".")
            (host_after_load env inv).window (some (host_after_load env inv))
          ++ steps_return .ModuleLoadFailed (host_after_load env inv),
        some (host_after_load env inv)⟩ := by
  have hs2 : 0 ≤ env.SDL_Init ( SDL_INIT_AUDIO ||| SDL_INIT_GAMECONTROLLER ||| SDL_INIT_VIDEO) := by
    simpa [sdl_flags] using hs
  have hp := arg_one inv h
  simp only [init_ok] at hi
  simp only [load_ok, load_result, host_after_init] at hl
  simp [main, h, hs2, hi, hl, hp, sdl_flags, host_after_init, host_after_load, load_result,
    steps_return, term_sdl]

theorem main_InitThreadFailed (env : Env) (inv : Invocation) (h : ¬ inv.argc < 2)
    (hs : ¬ env.SDL_Init sdl_flags < 0) (hi : init_ok env = true)
    (hl : load_ok env inv = true) (ht : main_thread env inv = none) :
    main env inv =
      some ⟨.InitThreadFailed,
        steps_to_init_thread env inv
          ++ error env "Failed to init main thread." (host_at_emplace env inv).window
            (some (host_at_emplace env inv))
          ++ steps_return .InitThreadFailed (host_at_emplace env inv),
        some (host_at_emplace env inv)⟩ := by
  have hs2 : 0 ≤ env.SDL_Init ( SDL_INIT_AUDIO ||| SDL_INIT_GAMECONTROLLER ||| SDL_INIT_VIDEO) := by
    simpa [sdl_flags] using hs
  have hp := arg_one inv h
  simp only [init_ok] at hi
  simp only [load_ok, load_result, host_after_init] at hl
  simp only [main_thread, init_thread_result, host_after_alloc, host_after_load, load_result,
    host_after_init, main_thread_id] at ht
  simp [main, h, hs2, hi, hl, ht, hp, sdl_flags, host_after_init, host_after_load, load_result,
    steps_return, term_sdl, steps_to_init_thread, host_at_emplace, host_after_alloc,
    init_thread_result, main_thread_id]

theorem main_RunThreadFailed (env : Env) (inv : Invocation) (mt : ThreadStatePtr)
    (h : ¬ inv.argc < 2) (hs : ¬ env.SDL_Init sdl_flags < 0) (hi : init_ok env = true)
    (hl : load_ok env inv = true) (ht : main_thread env inv = some mt)
    (hr : (run_result env inv mt).1 = false) :
    main env inv =
      some ⟨.RunThreadFailed,
        steps_to_init_thread env inv ++ steps_register_and_run env inv mt
          ++ (run_result env inv mt).2.2
          ++ error env "Failed to run main thread." (run_result env inv mt).2.1.window
            (some (run_result env inv mt).2.1)
          ++ steps_return .RunThreadFailed (run_result env inv mt).2.1,
        some (run_result env inv mt).2.1⟩ := by
  have hs2 : 0 ≤ env.SDL_Init ( SDL_INIT_AUDIO ||| SDL_INIT_GAMECONTROLLER ||| SDL_INIT_VIDEO) := by
    simpa [sdl_flags] using hs
  have hp := arg_one inv h
  simp only [init_ok] at hi
  simp only [load_ok, load_result, host_after_init] at hl
  simp only [main_thread, init_thread_result, host_after_alloc, host_after_load, load_result,
    host_after_init, main_thread_id] at ht
  simp only [run_result, host_at_run, host_after_emplace, host_at_emplace, init_thread_result,
    host_after_alloc, host_after_load, load_result, host_after_init, main_thread_id] at hr
  simp [main, h, hs2, hi, hl, ht, hr, hp, sdl_flags, host_after_init, host_after_load,
    load_result, steps_return, term_sdl, steps_to_init_thread, host_at_emplace,
    host_after_alloc, init_thread_result, main_thread_id, steps_register_and_run, run_result,
    host_at_run, host_after_emplace]

theorem main_Success (env : Env) (inv : Invocation) (mt : ThreadStatePtr)
    (h : ¬ inv.argc < 2) (hs : ¬ env.SDL_Init sdl_flags < 0) (hi : init_ok env = true)
    (hl : load_ok env inv = true) (ht : main_thread env inv = some mt)
    (hr : (run_result env inv mt).1 = true) :
    main env inv =
      some ⟨.Success,
        steps_to_init_thread env inv ++ steps_register_and_run env inv mt
          ++ (run_result env inv mt).2.2
          ++ steps_return .Success (run_result env inv mt).2.1,
        some (run_result env inv mt).2.1⟩ := by
  have hs2 : 0 ≤ env.SDL_Init ( SDL_INIT_AUDIO ||| SDL_INIT_GAMECONTROLLER ||| SDL_INIT_VIDEO) := by
    simpa [sdl_flags] using hs
  have hp := arg_one inv h
  simp only [init_ok] at hi
  simp only [load_ok, load_result, host_after_init] at hl
  simp only [main_thread, init_thread_result, host_after_alloc, host_after_load, load_result,
    host_after_init, main_thread_id] at ht
  simp only [run_result, host_at_run, host_after_emplace, host_at_emplace, init_thread_result,
    host_after_alloc, host_after_load, load_result, host_after_init, main_thread_id] at hr
  simp [main, h, hs2, hi, hl, ht, hr, hp, sdl_flags, host_after_init, host_after_load,
    load_result, steps_return, term_sdl, steps_to_init_thread, host_at_emplace,
    host_after_alloc, init_thread_result, main_thread_id, steps_register_and_run, run_result,
    host_at_run, host_after_emplace]

/-- Every run of `main` that returns follows one of the seven returning paths. -/
theorem main_cases (env : Env) (inv : Invocation) (o : Outcome) (ho : main env inv = some o) :
    (∃ argv0, inv.argc < 2 ∧ inv.arg 0 = some argv0 ∧
      o = ⟨.IncorrectArgs,
        [⟨.cout (env.window_title ++ "\n"), none⟩]
          ++ error env ("Usage: " ++ argv0 ++ " <path to VPK file>") none none
          ++ [⟨.ret .IncorrectArgs, none⟩],
        none⟩) ∨
    (¬ inv.argc < 2 ∧ env.SDL_Init sdl_flags < 0 ∧
      o = ⟨.SDLInitFailed,
        [⟨.cout (env.window_title ++ "\n"), none⟩, ⟨.SDL_Init sdl_flags, none⟩]
          ++ error env "SDL initialisation failed." none none
          ++ [⟨.ret .SDLInitFailed, none⟩],
        none⟩) ∨
    (¬ inv.argc < 2 ∧ ¬ env.SDL_Init sdl_flags < 0 ∧ init_ok env = false ∧
      o = ⟨.HostInitFailed,
        [⟨.cout (env.window_title ++ "\n"), none⟩, ⟨.SDL_Init sdl_flags, none⟩,
          ⟨.HostState_ctor, none⟩, ⟨.init, some env.HostState_default⟩]
          ++ error env "Host initialisation failed." (host_after_init env).window
            (some (host_after_init env))
          ++ steps_return .HostInitFailed (host_after_init env),
        some (host_after_init env)⟩) ∨
    (¬ inv.argc < 2 ∧ ¬ env.SDL_Init sdl_flags < 0 ∧ init_ok env = true ∧
      load_ok env inv = false ∧
      o = ⟨.ModuleLoadFailed,
        [⟨.cout (env.window_title ++ "\n"), none⟩, ⟨.SDL_Init sdl_flags, none⟩,
          ⟨.HostState_ctor, none⟩, ⟨.init, some env.HostState_default⟩,
          ⟨.load_vpk inv.path, some (host_after_init env)⟩]
          ++ error env ("Failed to load \"" ++ inv.path ++ "\".")
            (host_after_load env inv).window (some (host_after_load env inv))
          ++ steps_return .ModuleLoadFailed (host_after_load env inv),
        some (host_after_load env inv)⟩) ∨
    (¬ inv.argc < 2 ∧ ¬ env.SDL_Init sdl_flags < 0 ∧ init_ok env = true ∧
      load_ok env inv = true ∧ main_thread env inv = none ∧
      o = ⟨.InitThreadFailed,
        steps_to_init_thread env inv
          ++ error env "Failed to init main thread." (host_at_emplace env inv).window
            (some (host_at_emplace env inv))
          ++ steps_return .InitThreadFailed (host_at_emplace env inv),
        some (host_at_emplace env inv)⟩) ∨
    (∃ mt, ¬ inv.argc < 2 ∧ ¬ env.SDL_Init sdl_flags < 0 ∧ init_ok env = true ∧
      load_ok env inv = true ∧ main_thread env inv = some mt ∧
      (run_result env inv mt).1 = false ∧
      o = ⟨.RunThreadFailed,
        steps_to_init_thread env inv ++ steps_register_and_run env inv mt
          ++ (run_result env inv mt).2.2
          ++ error env "Failed to run main thread." (run_result env inv mt).2.1.window
            (some (run_result env inv mt).2.1)
          ++ steps_return .RunThreadFailed (run_result env inv mt).2.1,
        some (run_result env inv mt).2.1⟩) ∨
    (∃ mt, ¬ inv.argc < 2 ∧ ¬ env.SDL_Init sdl_flags < 0 ∧ init_ok env = true ∧
      load_ok env inv = true ∧ main_thread env inv = some mt ∧
      (run_result env inv mt).1 = true ∧
      o = ⟨.Success,
        steps_to_init_thread env inv ++ steps_register_and_run env inv mt
          ++ (run_result env inv mt).2.2
          ++ steps_return .Success (run_result env inv mt).2.1,
        some (run_result env inv mt).2.1⟩) := by
  by_cases h : inv.argc < 2
  · cases ha : inv.arg 0 with
    | none =>
      rw [main_null_argv env inv ((arg_zero_eq_none_iff inv).1 ha)] at ho
      cases ho
    | some argv0 =>
      rw [main_IncorrectArgs env inv argv0 h ha] at ho
      exact Or.inl ⟨argv0, h, rfl, (Option.some.inj ho).symm⟩
  by_cases hs : env.SDL_Init sdl_flags < 0
  · rw [main_SDLInitFailed env inv h hs] at ho
    exact Or.inr (Or.inl ⟨h, hs, (Option.some.inj ho).symm⟩)
  cases hi : init_ok env
  · rw [main_HostInitFailed env inv h hs hi] at ho
    exact Or.inr (Or.inr (Or.inl ⟨h, hs, rfl, (Option.some.inj ho).symm⟩))
  cases hl : load_ok env inv
  · rw [main_ModuleLoadFailed env inv h hs hi hl] at ho
    exact Or.inr (Or.inr (Or.inr (Or.inl ⟨h, hs, rfl, rfl, (Option.some.inj ho).symm⟩)))
  cases ht : main_thread env inv with
  | none =>
    rw [main_InitThreadFailed env inv h hs hi hl ht] at ho
    exact Or.inr (Or.inr (Or.inr (Or.inr (Or.inl
      ⟨h, hs, rfl, rfl, rfl, (Option.some.inj ho).symm⟩))))
  | some mt =>
    cases hr : (run_result env inv mt).1
    · rw [main_RunThreadFailed env inv mt h hs hi hl ht hr] at ho
      exact Or.inr (Or.inr (Or.inr (Or.inr (Or.inr (Or.inl
        ⟨mt, h, hs, rfl, rfl, rfl, hr, (Option.some.inj ho).symm⟩)))))
    · rw [main_Success env inv mt h hs hi hl ht hr] at ho
      exact Or.inr (Or.inr (Or.inr (Or.inr (Or.inr (Or.inr
        ⟨mt, h, hs, rfl, rfl, rfl, hr, (Option.some.inj ho).symm⟩)))))

/-- The function `main` returns unless `argc = 0`. -/
theorem main_returns (env : Env) (inv : Invocation) (h : inv.argv ≠ []) :
    ∃ o, main env inv = some o := by
  by_cases h2 : inv.argc < 2
  · cases ha : inv.arg 0 with
    | none => exact absurd ((arg_zero_eq_none_iff inv).1 ha) h
    | some argv0 => exact ⟨_, main_IncorrectArgs env inv argv0 h2 ha⟩
  by_cases hs : env.SDL_Init sdl_flags < 0
  · exact ⟨_, main_SDLInitFailed env inv h2 hs⟩
  cases hi : init_ok env
  · exact ⟨_, main_HostInitFailed env inv h2 hs hi⟩
  cases hl : load_ok env inv
  · exact ⟨_, main_ModuleLoadFailed env inv h2 hs hi hl⟩
  cases ht : main_thread env inv with
  | none => exact ⟨_, main_InitThreadFailed env inv h2 hs hi hl ht⟩
  | some mt =>
    cases hr : (run_result env inv mt).1
    · exact ⟨_, main_RunThreadFailed env inv mt h2 hs hi hl ht hr⟩
    · exact ⟨_, main_Success env inv mt h2 hs hi hl ht hr⟩

/-- The operations logged while a thread runs are dispatcher calls made for the
UID captured in the callable. -/
theorem run_thread_steps (env : Env) (c : CallImport) (g : Guest) :
    ∀ (host : HostState) (s : Step), s ∈ (run_thread env c g host).2.2 →
      ∃ nid h, s = ⟨.call_import nid c.main_thread_id, some h⟩ := by
  induction g with
  | done ok => intro host s hs; simp [run_thread] at hs
  | mem f k ih => intro host s hs; exact ih _ s (by simpa [run_thread] using hs)
  | call nid k ih =>
    intro host s hs
    simp only [run_thread, CallImport.invoke, List.mem_append, List.mem_singleton] at hs
    rcases hs with hs | hs
    · exact ⟨nid, host, hs⟩
    · exact ih _ _ s hs

/-- A property of the host that memory writes keep, and that each dispatcher
call actually made during the run keeps, holds after the whole thread run. -/
theorem run_thread_preserves (env : Env) (c : CallImport) (P : HostState → Prop)
    (hmem : ∀ (h : HostState) (m : MemState), P h → P { h with mem := m })
    (g : Guest) : ∀ host : HostState, P host →
      (∀ (nid : Nat) (x : HostState),
        (⟨.call_import nid c.main_thread_id, some x⟩ : Step) ∈ (run_thread env c g host).2.2 →
        P x → P (env.call_import x nid c.main_thread_id)) →
      P (run_thread env c g host).2.1 := by
  induction g with
  | done ok => intro host hp _; simpa [run_thread] using hp
  | mem f k ih =>
    intro host hp hcall
    exact ih _ (hmem host _ hp) (fun nid x hx => hcall nid x (by simpa [run_thread] using hx))
  | call nid k ih =>
    intro host hp hcall
    simp only [run_thread, CallImport.invoke] at hcall ⊢
    have h1 : P (env.call_import host nid c.main_thread_id) :=
      hcall nid host (by simp) hp
    exact ih _ _ h1 (fun nid2 x hx => hcall nid2 x (by simp [hx]))

/-- The operations of one `error` call: the message box, then standard error
exactly when the box could not be shown. -/
theorem error_events (env : Env) (message : String) (window : Option Window)
    (host : Option HostState) :
    (error env message window host).map Step.ev =
      if env.SDL_ShowSimpleMessageBox SDL_MESSAGEBOX_ERROR "Error" message window < 0 then
        [.SDL_ShowSimpleMessageBox SDL_MESSAGEBOX_ERROR "Error" message window,
         .cerr (message ++ "\n")]
      else [.SDL_ShowSimpleMessageBox SDL_MESSAGEBOX_ERROR "Error" message window] := by
  unfold error
  split <;> rfl

/-- The operations logged while a thread runs, as events. -/
theorem run_thread_events (env : Env) (c : CallImport) (g : Guest) (host : HostState)
    (e : Event) (he : e ∈ (run_thread env c g host).2.2.map Step.ev) :
    ∃ nid, e = .call_import nid c.main_thread_id := by
  rcases List.mem_map.1 he with ⟨s, hs, rfl⟩
  rcases run_thread_steps env c g host s hs with ⟨nid, h, rfl⟩
  exact ⟨nid, rfl⟩

/-- The loader is called exactly on the runs that pass the argument check,
platform initialisation and host initialisation, and with `argv[1]`. -/
theorem load_vpk_called_iff (env : Env) (inv : Invocation) (o : Outcome)
    (ho : main env inv = some o) (path : String) :
    Event.load_vpk path ∈ o.events ↔
      (¬ inv.argc < 2 ∧ ¬ env.SDL_Init sdl_flags < 0 ∧ init_ok env = true ∧
        path = inv.path) := by
  rcases main_cases env inv o ho with ⟨a0, h, ha, rfl⟩ | ⟨h, hs, rfl⟩ | ⟨h, hs, hi, rfl⟩ |
    ⟨h, hs, hi, hl, rfl⟩ | ⟨h, hs, hi, hl, ht, rfl⟩ | ⟨mt, h, hs, hi, hl, ht, hr, rfl⟩ |
    ⟨mt, h, hs, hi, hl, ht, hr, rfl⟩
  · simp only [Outcome.events, List.map_append, error_events]
    split <;> simp [h]
  · simp only [Outcome.events, List.map_append, error_events]
    split <;> simp [hs]
  · simp only [Outcome.events, List.map_append, error_events, steps_return]
    split <;> simp [hi]
  · simp only [Outcome.events, List.map_append, error_events, steps_return]
    split <;> simp [h, hs, hi]
  · simp only [Outcome.events, List.map_append, error_events, steps_return,
      steps_to_init_thread]
    split <;> simp [h, hs, hi]
  · have hrun : Event.load_vpk path ∉ (run_result env inv mt).2.2.map Step.ev := by
      intro hm
      rcases run_thread_events env _ _ _ _ hm with ⟨nid, hn⟩
      cases hn
    simp only [Outcome.events, List.map_append, error_events, steps_return,
      steps_to_init_thread, steps_register_and_run]
    split <;> simp [h, hs, hi, hrun]
  · have hrun : Event.load_vpk path ∉ (run_result env inv mt).2.2.map Step.ev := by
      intro hm
      rcases run_thread_events env _ _ _ _ hm with ⟨nid, hn⟩
      cases hn
    simp only [Outcome.events, List.map_append, steps_return,
      steps_to_init_thread, steps_register_and_run]
    simp [h, hs, hi, hrun]

/-- The main thread is run exactly on the runs in which every earlier stage
succeeded, and the thread run is the one `init_thread` returned. -/
theorem run_thread_called_iff (env : Env) (inv : Invocation) (o : Outcome)
    (ho : main env inv = some o) (mt : ThreadStatePtr) :
    Event.run_thread mt ∈ o.events ↔
      (¬ inv.argc < 2 ∧ ¬ env.SDL_Init sdl_flags < 0 ∧ init_ok env = true ∧
        load_ok env inv = true ∧ main_thread env inv = some mt) := by
  rcases main_cases env inv o ho with ⟨a0, h, ha, rfl⟩ | ⟨h, hs, rfl⟩ | ⟨h, hs, hi, rfl⟩ |
    ⟨h, hs, hi, hl, rfl⟩ | ⟨h, hs, hi, hl, ht, rfl⟩ | ⟨mt2, h, hs, hi, hl, ht, hr, rfl⟩ |
    ⟨mt2, h, hs, hi, hl, ht, hr, rfl⟩
  · simp only [Outcome.events, List.map_append, error_events]
    split <;> simp [h]
  · simp only [Outcome.events, List.map_append, error_events]
    split <;> simp [hs]
  · simp only [Outcome.events, List.map_append, error_events, steps_return]
    split <;> simp [hi]
  · simp only [Outcome.events, List.map_append, error_events, steps_return]
    split <;> simp [h, hs, hi, hl]
  · simp only [Outcome.events, List.map_append, error_events, steps_return,
      steps_to_init_thread]
    split <;> simp [h, hs, hi, hl, ht]
  · have hrun : Event.run_thread mt ∉ (run_result env inv mt2).2.2.map Step.ev := by
      intro hm
      rcases run_thread_events env _ _ _ _ hm with ⟨nid, hn⟩
      cases hn
    simp only [Outcome.events, List.map_append, error_events, steps_return,
      steps_to_init_thread, steps_register_and_run]
    split <;> simp [h, hs, hi, hl, ht, hrun, eq_comm]
  · have hrun : Event.run_thread mt ∉ (run_result env inv mt2).2.2.map Step.ev := by
      intro hm
      rcases run_thread_events env _ _ _ _ hm with ⟨nid, hn⟩
      cases hn
    simp only [Outcome.events, List.map_append, steps_return,
      steps_to_init_thread, steps_register_and_run]
    simp [h, hs, hi, hl, ht, hrun, eq_comm]

/-- The outcome of a run in which `run_thread` is called for thread `mt`. -/
theorem outcome_of_run (env : Env) (inv : Invocation) (o : Outcome)
    (ho : main env inv = some o) (mt : ThreadStatePtr)
    (hcall : Event.run_thread mt ∈ o.events) :
    ((run_result env inv mt).1 = false ∧
      o = ⟨.RunThreadFailed,
        steps_to_init_thread env inv ++ steps_register_and_run env inv mt
          ++ (run_result env inv mt).2.2
          ++ error env "Failed to run main thread." (run_result env inv mt).2.1.window
            (some (run_result env inv mt).2.1)
          ++ steps_return .RunThreadFailed (run_result env inv mt).2.1,
        some (run_result env inv mt).2.1⟩) ∨
    ((run_result env inv mt).1 = true ∧
      o = ⟨.Success,
        steps_to_init_thread env inv ++ steps_register_and_run env inv mt
          ++ (run_result env inv mt).2.2
          ++ steps_return .Success (run_result env inv mt).2.1,
        some (run_result env inv mt).2.1⟩) := by
  rcases (run_thread_called_iff env inv o ho mt).1 hcall with ⟨h, hs, hi, hl, ht⟩
  cases hr : (run_result env inv mt).1
  · rw [main_RunThreadFailed env inv mt h hs hi hl ht hr] at ho
    exact Or.inl ⟨rfl, (Option.some.inj ho).symm⟩
  · rw [main_Success env inv mt h hs hi hl ht hr] at ho
    exact Or.inr ⟨rfl, (Option.some.inj ho).symm⟩

/-! ## Exit codes -/

/-- Every returning run reports the ordinal of the first bootstrap stage that
fails, and 0 exactly when every stage succeeded. -/
theorem exit_code_of_returning_run (env : Env) (inv : Invocation) (o : Outcome)
    (ho : main env inv = some o) :
    o.code.toInt = first_failed_stage env inv ∧
    (o.code.toInt = 0 ↔
      (2 ≤ inv.argc ∧ 0 ≤ env.SDL_Init sdl_flags ∧ init_ok env = true ∧
        load_ok env inv = true ∧ (main_thread env inv).isSome = true ∧
        run_ok env inv = true)) := by
  rcases main_cases env inv o ho with ⟨a0, h, ha, rfl⟩ | ⟨h, hs, rfl⟩ | ⟨h, hs, hi, rfl⟩ |
    ⟨h, hs, hi, hl, rfl⟩ | ⟨h, hs, hi, hl, ht, rfl⟩ | ⟨mt, h, hs, hi, hl, ht, hr, rfl⟩ |
    ⟨mt, h, hs, hi, hl, ht, hr, rfl⟩
  · refine ⟨by simp [first_failed_stage, h, ExitCode.toInt], ?_⟩
    simp only [ExitCode.toInt]
    constructor
    · intro h0; omega
    · rintro ⟨h2, -⟩; omega
  · refine ⟨by simp [first_failed_stage, h, hs, ExitCode.toInt], ?_⟩
    simp only [ExitCode.toInt]
    constructor
    · intro h0; omega
    · rintro ⟨-, h2, -⟩; omega
  · exact ⟨by simp [first_failed_stage, h, hs, hi, ExitCode.toInt],
      by simp [ExitCode.toInt, hi]⟩
  · exact ⟨by simp [first_failed_stage, h, hs, hi, hl, ExitCode.toInt],
      by simp [ExitCode.toInt, hl]⟩
  · exact ⟨by simp [first_failed_stage, h, hs, hi, hl, ht, ExitCode.toInt],
      by simp [ExitCode.toInt, ht]⟩
  · exact ⟨by simp [first_failed_stage, h, hs, hi, hl, ht, hr, run_ok, ExitCode.toInt],
      by simp [ExitCode.toInt, run_ok, ht, hr]⟩
  · refine ⟨by simp [first_failed_stage, h, hs, hi, hl, ht, hr, run_ok, ExitCode.toInt], ?_⟩
    simp only [ExitCode.toInt, run_ok, ht, hr, hi, hl, true_iff]
    exact ⟨by omega, by omega, trivial, trivial, rfl, trivial⟩

/-- C1: with `argc = 0` the check `argc < 2` holds, so the first failing stage
is the missing argument (ordinal 1), but `main` appends the null `argv[0]` to the
usage message and returns no exit code.  On every other invocation `main`
returns, its exit code is the ordinal of the first bootstrap stage that fails
(1 missing argument, 2 `SDL_Init` negative, 3 `init` false, 4 `load_vpk` false,
5 `init_thread` null, 6 `run_thread` false) and is 0 exactly when every stage
succeeded.  The enumerators have pairwise distinct values. -/
theorem main_exit_code_unless_argc_zero (env : Env) (inv : Invocation) :
    (inv.argv = [] →
      inv.argc < 2 ∧ first_failed_stage env inv = 1 ∧ main env inv = none) ∧
    (inv.argv ≠ [] →
      ∃ o, main env inv = some o ∧ o.code.toInt = first_failed_stage env inv ∧
        (o.code.toInt = 0 ↔
          (2 ≤ inv.argc ∧ 0 ≤ env.SDL_Init sdl_flags ∧ init_ok env = true ∧
            load_ok env inv = true ∧ (main_thread env inv).isSome = true ∧
            run_ok env inv = true))) ∧
    Function.Injective ExitCode.toInt := by
  refine ⟨?_, ?_, ?_⟩
  · intro h
    have h2 : inv.argc < 2 := by simp [Invocation.argc, h]
    exact ⟨h2, by simp [first_failed_stage, h2], main_null_argv env inv h⟩
  · intro h
    rcases main_returns env inv h with ⟨o, ho⟩
    exact ⟨o, ho, exit_code_of_returning_run env inv o ho⟩
  · intro a b hab
    cases a <;> cases b <;> simp [ExitCode.toInt] at hab <;> rfl

/-- C1 at `sample_invocation_empty` (no exit code although the first failing
stage is the missing argument) and at `sample_invocation_bare` (exit code 1). -/
theorem main_exit_code_unless_argc_zero_witness :
    sample_invocation_empty.argc = 0 ∧
    first_failed_stage sample_env sample_invocation_empty = 1 ∧
    main sample_env sample_invocation_empty = none ∧
    (main sample_env sample_invocation_bare).map (fun o => o.code.toInt) = some 1 :=
  ⟨by decide,
   ((main_exit_code_unless_argc_zero sample_env sample_invocation_empty).1 (by decide)).2.1,
   ((main_exit_code_unless_argc_zero sample_env sample_invocation_empty).1 (by decide)).2.2,
   by decide⟩

/-! ## Missing argument -/

/-- C2: with `argc < 2` and `argv[0]` the program name, `main` returns
`IncorrectArgs` after printing the title and reporting the usage message
through `error` with no window; no `HostState` exists at any point of the run
and no operation of the run initialises the platform, constructs or initialises
a host, calls the loader, allocates a UID, or creates, registers or runs a
thread. -/
theorem missing_argument_is_usage_error (env : Env) (inv : Invocation) (argv0 : String)
    (h : inv.argc < 2) (ha : inv.arg 0 = some argv0) :
    ∃ o, main env inv = some o ∧
      o.code = .IncorrectArgs ∧
      o.host = none ∧
      o.trace =
        [⟨.cout (env.window_title ++ "\n"), none⟩]
          ++ error env ("Usage: " ++ argv0 ++ " <path to VPK file>") none none
          ++ [⟨.ret .IncorrectArgs, none⟩] ∧
      (∀ e ∈ o.events, e.builds_runtime_state = false) ∧
      (∀ s ∈ o.trace, s.host = none) := by
  refine ⟨_, main_IncorrectArgs env inv argv0 h ha, rfl, rfl, rfl, ?_, ?_⟩
  · simp only [Outcome.events, List.map_append, error_events]
    split <;> simp [Event.builds_runtime_state]
  · simp only [error]
    split <;> simp

/-- C2 at `sample_invocation_bare`. -/
theorem missing_argument_is_usage_error_witness :
    sample_invocation_bare.argc < 2 ∧
    sample_invocation_bare.arg 0 = some "vita3k" ∧
    (∃ o, main sample_env sample_invocation_bare = some o ∧ o.code = .IncorrectArgs) ∧
    (main sample_env sample_invocation_bare).map Outcome.events =
      some [.cout "Vita3K\n",
       .SDL_ShowSimpleMessageBox 16 "Error" "Usage: vita3k <path to VPK file>" none,
       .ret .IncorrectArgs] :=
  ⟨by decide, by decide,
   (missing_argument_is_usage_error sample_env sample_invocation_bare "vita3k"
      (by decide) (by decide)).imp (fun _ ho => ⟨ho.1, ho.2.1⟩),
   by decide⟩

/-! ## The registry -/

theorem find_eq_none_iff (m : ThreadStatePtrs) (uid : SceUID) :
    m.find uid = none ↔ m.entries uid = 0 := by
  simp [ThreadStatePtrs.find, ThreadStatePtrs.entries, List.countP_eq_zero]

/-- Registering under a key that is present changes nothing. -/
theorem emplace_of_present (m : ThreadStatePtrs) (uid : SceUID) (t : ThreadStatePtr)
    (h : (m.find uid).isSome = true) : m.emplace uid t = m := by
  simp [ThreadStatePtrs.emplace, h]

/-- Registering under a key that is absent appends the new entry. -/
theorem emplace_of_absent (m : ThreadStatePtrs) (uid : SceUID) (t : ThreadStatePtr)
    (h : m.find uid = none) : m.emplace uid t = m ++ [(uid, t)] := by
  simp [ThreadStatePtrs.emplace, h]

/-- Registering under a key that is absent makes the lookup yield the new thread. -/
theorem find_emplace_of_absent (m : ThreadStatePtrs) (uid : SceUID) (t : ThreadStatePtr)
    (h : m.find uid = none) : (m.emplace uid t).find uid = some t := by
  have h2 : List.find? (fun e => e.1 == uid) m = none := by
    simpa [ThreadStatePtrs.find] using h
  simp [ThreadStatePtrs.emplace, h, ThreadStatePtrs.find, List.find?_append, h2]

/-- Registration never hides or removes an entry that was there. -/
theorem find_emplace_of_found (m : ThreadStatePtrs) (uid u : SceUID) (t old : ThreadStatePtr)
    (h : m.find u = some old) : (m.emplace uid t).find u = some old := by
  unfold ThreadStatePtrs.emplace
  split
  · exact h
  · simp only [ThreadStatePtrs.find, Option.map_eq_some'] at h ⊢
    rcases h with ⟨a, ha, rfl⟩
    exact ⟨a, by simp [List.find?_append, ha], rfl⟩

/-- After a registration the key has exactly one entry if it had at most one. -/
theorem entries_emplace (m : ThreadStatePtrs) (uid : SceUID) (t : ThreadStatePtr)
    (h : m.entries uid ≤ 1) : (m.emplace uid t).entries uid = 1 := by
  unfold ThreadStatePtrs.emplace
  split
  · rename_i hp
    have hne : m.entries uid ≠ 0 := by
      intro h0
      rw [(find_eq_none_iff m uid).2 h0] at hp
      simp at hp
    omega
  · rename_i hp
    have h0 : m.entries uid = 0 := by
      apply (find_eq_none_iff m uid).1
      cases hf : m.find uid with
      | none => rfl
      | some x => simp [hf] at hp
    simp only [ThreadStatePtrs.entries] at h0 ⊢
    simp [List.countP_append, h0]

/-! ## Loader failure -/

/-- C3: on a run in which `load_vpk` is called and returns false, `main` returns
`ModuleLoadFailed`; no operation of the run allocates a UID or creates,
registers or runs a thread; and at the return `host.kernel` (`next_uid` and
`threads`) is as `init` left it. -/
theorem load_failure_creates_no_thread (env : Env) (inv : Invocation) (o : Outcome)
    (ho : main env inv = some o)
    (hcall : Event.load_vpk inv.path ∈ o.events)
    (hl : load_ok env inv = false) :
    o.code = .ModuleLoadFailed ∧
    (∀ e ∈ o.events, e.is_thread_activity = false) ∧
    (∃ h, o.host = some h ∧
      h.kernel.next_uid = (host_after_init env).kernel.next_uid ∧
      h.kernel.threads = (host_after_init env).kernel.threads) := by
  rcases (load_vpk_called_iff env inv o ho _).1 hcall with ⟨h, hs, hi, -⟩
  rw [main_ModuleLoadFailed env inv h hs hi hl] at ho
  obtain rfl := Option.some.inj ho
  refine ⟨rfl, ?_, ⟨_, rfl, rfl, rfl⟩⟩
  simp only [Outcome.events, List.map_append, error_events, steps_return]
  split <;> simp [Event.is_thread_activity]

/-- C3 at `sample_env_load_fails`. -/
theorem load_failure_creates_no_thread_witness :
    (∃ o, main sample_env_load_fails sample_invocation = some o ∧
      Event.load_vpk "game.vpk" ∈ o.events ∧ o.code = .ModuleLoadFailed) ∧
    load_ok sample_env_load_fails sample_invocation = false :=
  ⟨⟨(main sample_env_load_fails sample_invocation).get (by decide), by decide, by decide,
    (load_failure_creates_no_thread sample_env_load_fails sample_invocation
      ((main sample_env_load_fails sample_invocation).get (by decide))
      (by decide) (by decide) (by decide)).1⟩,
   by decide⟩

/-! ## Registration of the main thread -/

/-- On a run in which thread `mt` is run, an operation of thread set-up that is
not a dispatcher call occurs only among the steps up to the `run_thread` call. -/
theorem snapshot_on_run (env : Env) (inv : Invocation) (o : Outcome)
    (ho : main env inv = some o) (mt : ThreadStatePtr)
    (hcall : Event.run_thread mt ∈ o.events) (e : Event) (x : HostState)
    (hkind : e.is_thread_activity = true) (hnc : ∀ nid u, e ≠ .call_import nid u)
    (hpre : ∀ s ∈ steps_to_init_thread env inv ++ steps_register_and_run env inv mt,
      s.ev = e → s.host = some x) :
    ∀ s ∈ o.trace, s.ev = e → s.host = some x := by
  have hr1 : ∀ s ∈ (run_result env inv mt).2.2, s.ev = e → s.host = some x := by
    intro s hs hse
    rcases run_thread_steps env _ _ _ s hs with ⟨nid, h2, rfl⟩
    exact absurd hse.symm (hnc _ _)
  have herr : ∀ (m : String) (w : Option Window) (h : Option HostState),
      ∀ s ∈ error env m w h, s.ev = e → s.host = some x := by
    intro m w h s hs hse
    have hm : s.ev ∈ (error env m w h).map Step.ev := List.mem_map.2 ⟨s, hs, rfl⟩
    rw [error_events, hse] at hm
    split at hm <;> simp at hm <;> rcases hm with rfl | rfl <;> cases hkind
  have hret : ∀ (c : ExitCode) (h : HostState),
      ∀ s ∈ steps_return c h, s.ev = e → s.host = some x := by
    intro c h s hs hse
    simp only [steps_return, List.mem_cons, List.mem_singleton, List.not_mem_nil,
      or_false] at hs
    rcases hs with rfl | rfl | rfl <;> subst hse <;> cases hkind
  rcases outcome_of_run env inv o ho mt hcall with ⟨-, rfl⟩ | ⟨-, rfl⟩
  · simp only [List.forall_mem_append] at hpre ⊢
    exact ⟨⟨⟨hpre, hr1⟩, herr _ _ _⟩, hret _ _⟩
  · simp only [List.forall_mem_append] at hpre ⊢
    exact ⟨⟨hpre, hr1⟩, hret _ _⟩

/-- With nothing registered under the next UID when `init` returns, the
registration at main.cpp:103 appends the main thread under `main_thread_id`. -/
theorem registry_at_run (env : Env) (inv : Invocation) (mt : ThreadStatePtr)
    (hinv : (host_after_init env).kernel.next_uid_unregistered = true) :
    (host_at_run env inv mt).kernel.threads =
      (host_after_init env).kernel.threads ++ [(main_thread_id env inv, mt)] ∧
    (host_at_run env inv mt).kernel.threads.find (main_thread_id env inv) = some mt := by
  have hn : (host_at_emplace env inv).kernel.threads.find (main_thread_id env inv) = none := by
    simpa [KernelState.next_uid_unregistered] using hinv
  constructor
  · simpa [host_at_run, host_after_emplace] using emplace_of_absent _ _ mt hn
  · simpa [host_at_run, host_after_emplace] using find_emplace_of_absent _ _ mt hn

/-- C4: on a run in which `run_thread` is called, the UID is the value
`next_uid` had (the kernel state still being the one `init` left),
`init_thread` returned the thread that is run, and the operations come in the
order post-increment, `init_thread`, `emplace` of that thread under that UID,
tick sample, `run_thread`, the latter called once.  The Kernel's UID invariant
holding for the host `init` hands over (nothing registered under the UID not yet
allocated), the registration appends the thread under that UID, and at the call
of `run_thread` the lookup of `main_thread_id` yields exactly the thread being
run. -/
theorem main_thread_registered_before_run (env : Env) (inv : Invocation) (o : Outcome)
    (mt : ThreadStatePtr) (ho : main env inv = some o)
    (hcall : Event.run_thread mt ∈ o.events) :
    main_thread_id env inv = (host_after_init env).kernel.next_uid ∧
    main_thread env inv = some mt ∧
    (∃ post, o.events =
        [.cout (env.window_title ++ "\n"), .SDL_Init sdl_flags, .HostState_ctor, .init,
         .load_vpk inv.path, .next_uid_post_increment (main_thread_id env inv),
         .init_thread (load_result env inv).2.1 (MB 1) false ⟨main_thread_id env inv⟩,
         .emplace (main_thread_id env inv) mt, .SDL_GetTicks,
         .assign_t1 env.SDL_GetTicks, .run_thread mt] ++ post ∧
      ∀ t, Event.run_thread t ∉ post) ∧
    (∀ s ∈ o.trace, s.ev = .next_uid_post_increment (main_thread_id env inv) →
      ∃ h, s.host = some h ∧ h.kernel = (host_after_init env).kernel) ∧
    (∀ s ∈ o.trace, s.ev = .emplace (main_thread_id env inv) mt →
      ∃ h, s.host = some h ∧ h.kernel.threads = (host_after_init env).kernel.threads) ∧
    ((host_after_init env).kernel.next_uid_unregistered = true →
      ∀ s ∈ o.trace, s.ev = .run_thread mt →
        ∃ h, s.host = some h ∧
          h.kernel.threads =
            (host_after_init env).kernel.threads ++ [(main_thread_id env inv, mt)] ∧
          h.kernel.threads.find (main_thread_id env inv) = some mt) := by
  have ht := ((run_thread_called_iff env inv o ho mt).1 hcall).2.2.2.2
  have hnorun : ∀ t, Event.run_thread t ∉ (run_result env inv mt).2.2.map Step.ev := by
    intro t hm
    rcases run_thread_events env _ _ _ _ hm with ⟨nid, hn⟩
    cases hn
  refine ⟨rfl, ht, ?_, ?_, ?_, ?_⟩
  · rcases outcome_of_run env inv o ho mt hcall with ⟨-, rfl⟩ | ⟨-, rfl⟩
    · refine ⟨(run_result env inv mt).2.2.map Step.ev
          ++ (error env "Failed to run main thread." (run_result env inv mt).2.1.window
            (some (run_result env inv mt).2.1)).map Step.ev
          ++ (steps_return .RunThreadFailed (run_result env inv mt).2.1).map Step.ev,
        by simp [Outcome.events, steps_to_init_thread, steps_register_and_run], ?_⟩
      intro t
      simp only [error_events, steps_return]
      split <;> simp [hnorun]
    · refine ⟨(run_result env inv mt).2.2.map Step.ev
          ++ (steps_return .Success (run_result env inv mt).2.1).map Step.ev,
        by simp [Outcome.events, steps_to_init_thread, steps_register_and_run], ?_⟩
      intro t
      simp [steps_return, hnorun]
  · intro s hs hse
    exact ⟨_, snapshot_on_run env inv o ho mt hcall
      (.next_uid_post_increment (main_thread_id env inv)) (host_after_load env inv) rfl
      (by intro nid u; simp) (by simp [steps_to_init_thread, steps_register_and_run]) s hs hse,
      rfl⟩
  · intro s hs hse
    exact ⟨_, snapshot_on_run env inv o ho mt hcall
      (.emplace (main_thread_id env inv) mt) (host_at_emplace env inv) rfl
      (by intro nid u; simp) (by simp [steps_to_init_thread, steps_register_and_run]) s hs hse,
      rfl⟩
  · intro hinv s hs hse
    exact ⟨_, snapshot_on_run env inv o ho mt hcall
      (.run_thread mt) (host_at_run env inv mt) rfl
      (by intro nid u; simp) (by simp [steps_to_init_thread, steps_register_and_run]) s hs hse,
      registry_at_run env inv mt hinv⟩

/-- C4 at `sample_env`: thread 9 is found under UID 0 when it is run. -/
theorem main_thread_registered_before_run_witness :
    (∃ o, main sample_env sample_invocation = some o ∧ Event.run_thread 9 ∈ o.events ∧
      ∀ s ∈ o.trace, s.ev = .run_thread 9 →
        ∃ h, s.host = some h ∧
          h.kernel.threads =
            (host_after_init sample_env).kernel.threads ++
              [(main_thread_id sample_env sample_invocation, 9)] ∧
          h.kernel.threads.find (main_thread_id sample_env sample_invocation) = some 9) ∧
    (host_after_init sample_env).kernel.next_uid_unregistered = true ∧
    main_thread_id sample_env sample_invocation = 0 :=
  ⟨⟨(main sample_env sample_invocation).get (by decide), by decide, by decide,
    (main_thread_registered_before_run sample_env sample_invocation
      ((main sample_env sample_invocation).get (by decide)) 9 (by decide)
      (by decide)).2.2.2.2.2 (by decide)⟩,
   by decide, by decide⟩

/-! ## The import callable -/

/-- The callable handed to `init_thread` captures `main_thread_id`. -/
theorem init_thread_called_with (env : Env) (inv : Invocation) (o : Outcome)
    (ho : main env inv = some o) (entry : Address)
    (stack : Nat) (log : Bool) (c : CallImport)
    (hcall : Event.init_thread entry stack log c ∈ o.events) :
    c = ⟨main_thread_id env inv⟩ := by
  rcases main_cases env inv o ho with ⟨a0, h, ha, rfl⟩ | ⟨h, hs, rfl⟩ | ⟨h, hs, hi, rfl⟩ |
    ⟨h, hs, hi, hl, rfl⟩ | ⟨h, hs, hi, hl, ht, rfl⟩ | ⟨mt, h, hs, hi, hl, ht, hr, rfl⟩ |
    ⟨mt, h, hs, hi, hl, ht, hr, rfl⟩
  · simp only [Outcome.events, List.map_append, error_events] at hcall
    split at hcall <;> simp at hcall
  · simp only [Outcome.events, List.map_append, error_events] at hcall
    split at hcall <;> simp at hcall
  · simp only [Outcome.events, List.map_append, error_events, steps_return] at hcall
    split at hcall <;> simp at hcall
  · simp only [Outcome.events, List.map_append, error_events, steps_return] at hcall
    split at hcall <;> simp at hcall
  · simp only [Outcome.events, List.map_append, error_events, steps_return,
      steps_to_init_thread] at hcall
    split at hcall <;> simp at hcall <;> exact hcall.2.2.2
  · have hrun : Event.init_thread entry stack log c ∉
        (run_result env inv mt).2.2.map Step.ev := by
      intro hm
      rcases run_thread_events env _ _ _ _ hm with ⟨nid, hn⟩
      cases hn
    simp only [Outcome.events, List.map_append, error_events, steps_return,
      steps_to_init_thread, steps_register_and_run] at hcall
    split at hcall <;> simp [hrun] at hcall <;> exact hcall.2.2.2
  · have hrun : Event.init_thread entry stack log c ∉
        (run_result env inv mt).2.2.map Step.ev := by
      intro hm
      rcases run_thread_events env _ _ _ _ hm with ⟨nid, hn⟩
      cases hn
    simp only [Outcome.events, List.map_append, steps_return,
      steps_to_init_thread, steps_register_and_run] at hcall
    simp [hrun] at hcall
    exact hcall.2.2.2

/-- Registrations and dispatcher calls of a run all carry `main_thread_id`. -/
theorem uid_of_emplace_and_call_import (env : Env) (inv : Invocation) (o : Outcome)
    (ho : main env inv = some o) :
    (∀ u t, Event.emplace u t ∈ o.events → u = main_thread_id env inv) ∧
    (∀ nid u, Event.call_import nid u ∈ o.events → u = main_thread_id env inv) := by
  rcases main_cases env inv o ho with ⟨a0, h, ha, rfl⟩ | ⟨h, hs, rfl⟩ | ⟨h, hs, hi, rfl⟩ |
    ⟨h, hs, hi, hl, rfl⟩ | ⟨h, hs, hi, hl, ht, rfl⟩ | ⟨mt, h, hs, hi, hl, ht, hr, rfl⟩ |
    ⟨mt, h, hs, hi, hl, ht, hr, rfl⟩
  · simp only [Outcome.events, List.map_append, error_events]
    split <;> simp
  · simp only [Outcome.events, List.map_append, error_events]
    split <;> simp
  · simp only [Outcome.events, List.map_append, error_events, steps_return]
    split <;> simp
  · simp only [Outcome.events, List.map_append, error_events, steps_return]
    split <;> simp
  · simp only [Outcome.events, List.map_append, error_events, steps_return,
      steps_to_init_thread]
    split <;> simp
  · have hrun1 : ∀ u t, Event.emplace u t ∉ (run_result env inv mt).2.2.map Step.ev := by
      intro u t hm
      rcases run_thread_events env _ _ _ _ hm with ⟨nid, hn⟩
      cases hn
    have hrun2 : ∀ nid u, Event.call_import nid u ∈ (run_result env inv mt).2.2.map Step.ev →
        u = main_thread_id env inv := by
      intro nid u hm
      rcases run_thread_events env _ _ _ _ hm with ⟨nid2, hn⟩
      cases hn
      rfl
    simp only [Outcome.events, List.map_append, error_events, steps_return,
      steps_to_init_thread, steps_register_and_run]
    split <;> simp [hrun1] <;>
      exact fun nid u x hx hxe => hrun2 nid u (List.mem_map.2 ⟨x, hx, hxe⟩)
  · have hrun1 : ∀ u t, Event.emplace u t ∉ (run_result env inv mt).2.2.map Step.ev := by
      intro u t hm
      rcases run_thread_events env _ _ _ _ hm with ⟨nid, hn⟩
      cases hn
    have hrun2 : ∀ nid u, Event.call_import nid u ∈ (run_result env inv mt).2.2.map Step.ev →
        u = main_thread_id env inv := by
      intro nid u hm
      rcases run_thread_events env _ _ _ _ hm with ⟨nid2, hn⟩
      cases hn
      rfl
    simp only [Outcome.events, List.map_append, steps_return,
      steps_to_init_thread, steps_register_and_run]
    simp [hrun1]
    exact fun nid u x hx hxe => hrun2 nid u (List.mem_map.2 ⟨x, hx, hxe⟩)

/-- C5: invoking the callable handed to `init_thread` with an identifier `nid`
on the process host performs exactly one call of the dispatcher
`::call_import`, with that host, that `nid` and `main_thread_id`, and leaves the
host as the dispatcher leaves it.  Every registration and every dispatcher call
of the run carries `main_thread_id`; and, the Kernel's UID invariant holding
for the host `init` hands over, `main_thread_id` is the UID under which the
thread is registered: whenever a thread is run, `host.kernel.threads` then holds
it as the one entry added by `main`, and the lookup of `main_thread_id` yields
it. -/
theorem call_import_bound_to_main_thread (env : Env) (inv : Invocation) (o : Outcome)
    (entry : Address) (stack : Nat) (log : Bool) (c : CallImport)
    (ho : main env inv = some o)
    (hcall : Event.init_thread entry stack log c ∈ o.events) :
    (∀ (nid : Nat) (host : HostState),
      c.invoke env nid host =
        (env.call_import host nid (main_thread_id env inv),
         [⟨.call_import nid (main_thread_id env inv), some host⟩])) ∧
    (∀ u t, Event.emplace u t ∈ o.events → u = main_thread_id env inv) ∧
    (∀ nid u, Event.call_import nid u ∈ o.events → u = main_thread_id env inv) ∧
    ((host_after_init env).kernel.next_uid_unregistered = true →
      ∀ mt, Event.run_thread mt ∈ o.events →
        ∀ s ∈ o.trace, s.ev = .run_thread mt →
          ∃ h, s.host = some h ∧
            h.kernel.threads =
              (host_after_init env).kernel.threads ++ [(main_thread_id env inv, mt)] ∧
            h.kernel.threads.find (main_thread_id env inv) = some mt) := by
  rw [init_thread_called_with env inv o ho entry stack log c hcall]
  refine ⟨fun nid host => rfl, (uid_of_emplace_and_call_import env inv o ho).1,
    (uid_of_emplace_and_call_import env inv o ho).2, ?_⟩
  intro hinv mt hrun s hs hse
  exact ⟨_, snapshot_on_run env inv o ho mt hrun
    (.run_thread mt) (host_at_run env inv mt) rfl
    (by intro nid u; simp) (by simp [steps_to_init_thread, steps_register_and_run]) s hs hse,
    registry_at_run env inv mt hinv⟩

/-- C5 at `sample_env`: the import `0x1234` of the sample guest is dispatched
once, for UID 0, under which thread 9 is registered when it is run. -/
theorem call_import_bound_to_main_thread_witness :
    ∃ o, main sample_env sample_invocation = some o ∧
      Event.init_thread 0x81000000 (MB 1) false ⟨0⟩ ∈ o.events ∧
      o.events.filter (fun e => e matches .call_import _ _) = [.call_import 0x1234 0] ∧
      main_thread_id sample_env sample_invocation = 0 ∧
      (∀ s ∈ o.trace, s.ev = .run_thread 9 →
        ∃ h, s.host = some h ∧
          h.kernel.threads =
            (host_after_init sample_env).kernel.threads ++
              [(main_thread_id sample_env sample_invocation, 9)] ∧
          h.kernel.threads.find (main_thread_id sample_env sample_invocation) = some 9) :=
  ⟨(main sample_env sample_invocation).get (by decide), by decide, by decide, by decide,
   by decide,
   (call_import_bound_to_main_thread sample_env sample_invocation
      ((main sample_env sample_invocation).get (by decide)) 0x81000000 (MB 1) false ⟨0⟩
      (by decide) (by decide)).2.2.2 (by decide) 9 (by decide)⟩

/-! ## UID allocation -/

/-- Wrapping leaves a value of the signed range as it is. -/
theorem wrap_signed_of_in_range (bits : Nat) (x : Int) (hb : 1 ≤ bits)
    (hlo : -(2 ^ (bits - 1) : Int) ≤ x) (hhi : x < 2 ^ (bits - 1)) :
    wrap_signed bits x = x := by
  have hp : (2 : Int) ^ bits = 2 * 2 ^ (bits - 1) := by
    obtain ⟨b, rfl⟩ : ∃ b, bits = b + 1 := ⟨bits - 1, by omega⟩
    simp [pow_succ, mul_comm]
  unfold wrap_signed
  rw [hp, Int.emod_eq_of_lt (by omega) (by omega)]
  omega

/-- Successive allocations that stay below the largest value count upwards. -/
theorem allocate_uids_spec (bits : Nat) (hb : 1 ≤ bits) :
    ∀ (n : Nat) (k : KernelState), -(2 ^ (bits - 1) : Int) ≤ k.next_uid →
      k.next_uid + n < 2 ^ (bits - 1) →
      (∀ u ∈ (allocate_uids bits n k).1, k.next_uid ≤ u ∧ u < k.next_uid + n) ∧
      (allocate_uids bits n k).1.Pairwise (· < ·) ∧
      (allocate_uids bits n k).2.next_uid = k.next_uid + n ∧
      (allocate_uids bits n k).1.length = n := by
  intro n
  induction n with
  | zero => intro k _ _; simp [allocate_uids]
  | succ n ih =>
    intro k hlo hhi
    have hhi2 : k.next_uid + 1 + n < 2 ^ (bits - 1) := by
      push_cast at hhi; unfold SceUID at *; omega
    have hw : wrap_signed bits (k.next_uid + 1) = k.next_uid + 1 :=
      wrap_signed_of_in_range bits _ hb (by unfold SceUID at *; omega)
        (by unfold SceUID at *; omega)
    have hk := ih (next_uid_post_increment bits k).2
      (by simp only [next_uid_post_increment, hw]; unfold SceUID at *; omega)
      (by simp only [next_uid_post_increment, hw]; exact hhi2)
    simp only [next_uid_post_increment, hw] at hk
    simp only [allocate_uids, next_uid_post_increment, hw, List.mem_cons, List.pairwise_cons,
      List.length_cons]
    rcases hk with ⟨h1, h2, h3, h4⟩
    refine ⟨?_, ⟨?_, h2⟩, ?_, by omega⟩
    · rintro u (rfl | hu)
      · push_cast; unfold SceUID at *; omega
      · have := h1 u hu; push_cast; unfold SceUID at *; omega
    · intro u hu
      have := h1 u hu; unfold SceUID at *; omega
    · rw [h3]; push_cast; unfold SceUID at *; omega

/-- C6 as stated fails: from the largest 32-bit value the post-increment leaves
`next_uid` below the UID it returned, and the next allocation returns a
smaller UID. -/
theorem uid_allocation_counterexample :
    ¬ ((next_uid_post_increment 32 sample_kernel_full).1 <
        (next_uid_post_increment 32 sample_kernel_full).2.next_uid) ∧
    (allocate_uids 32 2 sample_kernel_full).1 = [2147483647, -2147483648] := by
  decide

/-- C6, amended: the post-increment returns the previous value of `next_uid`;
and for a counter of at least one bit whose value is in range, as long as the
allocations stay below the largest representable value (`next_uid + n` does
not exceed it), `n` successive allocations return strictly increasing, hence
pairwise different, UIDs, each smaller than the `next_uid` left behind, which is
`n` more than at the start. -/
theorem uid_allocation_increases_below_maximum (bits : Nat) (k : KernelState) (n : Nat)
    (hb : 1 ≤ bits) (hlo : -(2 ^ (bits - 1) : Int) ≤ k.next_uid)
    (hhi : k.next_uid + n < 2 ^ (bits - 1)) :
    (next_uid_post_increment bits k).1 = k.next_uid ∧
    (1 ≤ n → (next_uid_post_increment bits k).1 <
      (next_uid_post_increment bits k).2.next_uid) ∧
    (allocate_uids bits n k).1.length = n ∧
    (allocate_uids bits n k).1.Pairwise (· < ·) ∧
    (allocate_uids bits n k).1.Nodup ∧
    (∀ u ∈ (allocate_uids bits n k).1, u < (allocate_uids bits n k).2.next_uid) ∧
    (allocate_uids bits n k).2.next_uid = k.next_uid + n := by
  rcases allocate_uids_spec bits hb n k hlo hhi with ⟨h1, h2, h3, h4⟩
  refine ⟨rfl, ?_, h4, h2, ?_, ?_, h3⟩
  · intro hn
    have hw : wrap_signed bits (k.next_uid + 1) = k.next_uid + 1 :=
      wrap_signed_of_in_range bits _ hb (by unfold SceUID at *; omega)
        (by unfold SceUID at *; omega)
    simp only [next_uid_post_increment, hw]
    unfold SceUID at *
    omega
  · exact h2.imp (fun hab => ne_of_lt hab)
  · intro u hu
    rw [h3]
    exact (h1 u hu).2

/-- C6 (amended) at a fresh 32-bit counter: three allocations return 0, 1, 2. -/
theorem uid_allocation_increases_below_maximum_witness :
    (allocate_uids 32 3 ⟨0, []⟩).1 = [0, 1, 2] ∧
    (allocate_uids 32 3 ⟨0, []⟩).1.Pairwise (· < ·) ∧
    (allocate_uids 32 3 ⟨0, []⟩).2.next_uid = 3 :=
  ⟨by decide,
   (uid_allocation_increases_below_maximum 32 ⟨0, []⟩ 3 (by decide) (by decide)
      (by decide)).2.2.2.1,
   by decide⟩

/-! ## Duplicate registration -/

/-- A thread is registered exactly on the runs in which it is run, and under
`main_thread_id`. -/
theorem emplace_called_iff (env : Env) (inv : Invocation) (o : Outcome)
    (ho : main env inv = some o) (u : SceUID) (mt : ThreadStatePtr) :
    Event.emplace u mt ∈ o.events ↔
      (Event.run_thread mt ∈ o.events ∧ u = main_thread_id env inv) := by
  rw [run_thread_called_iff env inv o ho]
  rcases main_cases env inv o ho with ⟨a0, h, ha, rfl⟩ | ⟨h, hs, rfl⟩ | ⟨h, hs, hi, rfl⟩ |
    ⟨h, hs, hi, hl, rfl⟩ | ⟨h, hs, hi, hl, ht, rfl⟩ | ⟨mt2, h, hs, hi, hl, ht, hr, rfl⟩ |
    ⟨mt2, h, hs, hi, hl, ht, hr, rfl⟩
  · simp only [Outcome.events, List.map_append, error_events]
    split <;> simp [h]
  · simp only [Outcome.events, List.map_append, error_events]
    split <;> simp [hs]
  · simp only [Outcome.events, List.map_append, error_events, steps_return]
    split <;> simp [hi]
  · simp only [Outcome.events, List.map_append, error_events, steps_return]
    split <;> simp [h, hs, hi, hl]
  · simp only [Outcome.events, List.map_append, error_events, steps_return,
      steps_to_init_thread]
    split <;> simp [h, hs, hi, hl, ht]
  · have hrun : Event.emplace u mt ∉ (run_result env inv mt2).2.2.map Step.ev := by
      intro hm
      rcases run_thread_events env _ _ _ _ hm with ⟨nid, hn⟩
      cases hn
    simp only [Outcome.events, List.map_append, error_events, steps_return,
      steps_to_init_thread, steps_register_and_run]
    split <;> simp [h, hs, hi, hl, ht, hrun] <;> tauto
  · have hrun : Event.emplace u mt ∉ (run_result env inv mt2).2.2.map Step.ev := by
      intro hm
      rcases run_thread_events env _ _ _ _ hm with ⟨nid, hn⟩
      cases hn
    simp only [Outcome.events, List.map_append, steps_return,
      steps_to_init_thread, steps_register_and_run]
    simp [h, hs, hi, hl, ht, hrun]
    tauto

/-- No operation of a thread run shows a message box. -/
theorem run_thread_no_message_box (env : Env) (c : CallImport) (g : Guest) (host : HostState) :
    ((run_thread env c g host).2.2.map Step.ev).countP Event.is_message_box = 0 := by
  rw [List.countP_eq_zero]
  intro e he
  rcases run_thread_events env c g host e he with ⟨nid, rfl⟩
  simp [Event.is_message_box]

/-- C7 as stated fails: thread 7 is registered under the UID `main` allocates,
yet `main` shows no message, runs thread 9 and returns `Success`. -/
theorem duplicate_registration_counterexample :
    (host_at_emplace sample_env_taken sample_invocation).kernel.threads.find
      (main_thread_id sample_env_taken sample_invocation) = some 7 ∧
    ∃ o, main sample_env_taken sample_invocation = some o ∧
      Event.emplace (main_thread_id sample_env_taken sample_invocation) 9 ∈ o.events ∧
      Event.run_thread 9 ∈ o.events ∧
      o.events.countP Event.is_message_box = 0 ∧
      o.code = .Success :=
  ⟨by decide, (main sample_env_taken sample_invocation).get (by decide), by decide,
   by decide, by decide, by decide, by decide⟩

/-- C7, amended: when the registry already holds an entry under
`main_thread_id` at the registration, `emplace` leaves the registry as it is
(the entry found under the UID is the old one, and a UID with at most one entry
still has at most one); `main` does not treat this as a failure: it goes on to
run the thread, shows a message only if `run_thread` returns false, and returns
`Success` or `RunThreadFailed` according to the result of `run_thread` alone. -/
theorem duplicate_registration_is_ignored (env : Env) (inv : Invocation) (o : Outcome)
    (mt old : ThreadStatePtr) (ho : main env inv = some o)
    (hcall : Event.emplace (main_thread_id env inv) mt ∈ o.events)
    (hdup : (host_at_emplace env inv).kernel.threads.find (main_thread_id env inv) = some old) :
    (host_after_emplace env inv mt).kernel.threads = (host_at_emplace env inv).kernel.threads ∧
    (host_at_run env inv mt).kernel.threads.find (main_thread_id env inv) = some old ∧
    ((host_at_emplace env inv).kernel.threads.entries (main_thread_id env inv) ≤ 1 →
      (host_after_emplace env inv mt).kernel.threads.entries (main_thread_id env inv) ≤ 1) ∧
    Event.run_thread mt ∈ o.events ∧
    o.code =
      (if (run_result env inv mt).1 then ExitCode.Success else ExitCode.RunThreadFailed) ∧
    o.events.countP Event.is_message_box =
      (if (run_result env inv mt).1 then 0 else 1) := by
  have hrun := ((emplace_called_iff env inv o ho _ mt).1 hcall).1
  have hsame : (host_after_emplace env inv mt).kernel.threads =
      (host_at_emplace env inv).kernel.threads := by
    simp only [host_after_emplace]
    exact emplace_of_present _ _ _ (by rw [hdup]; rfl)
  have hbox := run_thread_no_message_box env ⟨main_thread_id env inv⟩ (env.guest mt)
    (host_at_run env inv mt)
  refine ⟨hsame, ?_, ?_, hrun, ?_, ?_⟩
  · simp only [host_at_run, hsame]
    exact hdup
  · intro hle
    rw [hsame]
    exact hle
  · rcases outcome_of_run env inv o ho mt hrun with ⟨hr, rfl⟩ | ⟨hr, rfl⟩ <;> simp [hr]
  · rcases outcome_of_run env inv o ho mt hrun with ⟨hr, rfl⟩ | ⟨hr, rfl⟩
    · simp only [Outcome.events, List.map_append, List.countP_append, error_events, steps_return,
        steps_to_init_thread, steps_register_and_run]
      rw [show (run_result env inv mt).2.2 = (run_thread env ⟨main_thread_id env inv⟩
        (env.guest mt) (host_at_run env inv mt)).2.2 from rfl, hbox]
      split <;> simp [List.countP_cons, Event.is_message_box, hr]
    · simp only [Outcome.events, List.map_append, List.countP_append, steps_return,
        steps_to_init_thread, steps_register_and_run]
      rw [show (run_result env inv mt).2.2 = (run_thread env ⟨main_thread_id env inv⟩
        (env.guest mt) (host_at_run env inv mt)).2.2 from rfl, hbox]
      simp [List.countP_cons, Event.is_message_box, hr]

/-- C7 (amended) at `sample_env_taken_run_fails`: thread 7 stays registered
under UID 0 and the exit code is that of the failed run. -/
theorem duplicate_registration_is_ignored_witness :
    (host_at_emplace sample_env_taken_run_fails sample_invocation).kernel.threads.find
      (main_thread_id sample_env_taken_run_fails sample_invocation) = some 7 ∧
    (host_at_run sample_env_taken_run_fails sample_invocation 9).kernel.threads.find
      (main_thread_id sample_env_taken_run_fails sample_invocation) = some 7 ∧
    ∃ o, main sample_env_taken_run_fails sample_invocation = some o ∧
      Event.emplace (main_thread_id sample_env_taken_run_fails sample_invocation) 9 ∈
        o.events ∧
      o.code = .RunThreadFailed :=
  ⟨by decide,
   (duplicate_registration_is_ignored sample_env_taken_run_fails sample_invocation
      ((main sample_env_taken_run_fails sample_invocation).get (by decide)) 9 7
      (by decide) (by decide) (by decide)).2.1,
   (main sample_env_taken_run_fails sample_invocation).get (by decide), by decide, by decide,
   by decide⟩

/-! ## A failed main thread -/

/-- An entry that the dispatcher calls actually made keep is still found after
the thread has run. -/
theorem run_thread_keeps_entry (env : Env) (c : CallImport) (u : SceUID) (t : ThreadStatePtr)
    (g : Guest) (host : HostState) (hfound : host.kernel.threads.find u = some t)
    (hkeep : ∀ (nid : Nat) (x : HostState),
      (⟨.call_import nid c.main_thread_id, some x⟩ : Step) ∈ (run_thread env c g host).2.2 →
      x.kernel.threads.find u = some t →
      (env.call_import x nid c.main_thread_id).kernel.threads.find u = some t) :
    (run_thread env c g host).2.1.kernel.threads.find u = some t :=
  run_thread_preserves env c (fun h => h.kernel.threads.find u = some t)
    (fun _ _ hp => hp) g host hfound hkeep

/-- C8 as stated fails: the running main thread makes an import call, the
dispatcher empties the registry, `run_thread` returns false, and at the return
of `RunThreadFailed` the lookup of `main_thread_id` yields nothing although the
thread was registered under a free UID. -/
theorem failed_thread_lookup_counterexample :
    (host_after_init sample_env_reaping).kernel.next_uid_unregistered = true ∧
    main_thread sample_env_reaping sample_invocation = some 9 ∧
    (host_at_run sample_env_reaping sample_invocation 9).kernel.threads.find
      (main_thread_id sample_env_reaping sample_invocation) = some 9 ∧
    ∃ o, main sample_env_reaping sample_invocation = some o ∧
      o.code = .RunThreadFailed ∧
      o.host.map (fun h => h.kernel.threads.find
        (main_thread_id sample_env_reaping sample_invocation)) = some none :=
  ⟨by decide, by decide, by decide,
   (main sample_env_reaping sample_invocation).get (by decide), by decide, by decide,
   by decide⟩

/-- C8, amended: `main` removes no registry entry on any path: an entry that
`init` left is still found at the return if every dispatcher call made during
the run kept it.  On a run in which `run_thread` returns false, `main` shows the
message "Failed to run main thread.", returns the non-zero `RunThreadFailed`,
and changes nothing after the thread has run; the Kernel's UID invariant
holding for the host `init` hands over, the lookup of `main_thread_id` yields
the main thread when `run_thread` is called, and still does at the return
provided every dispatcher call made while the thread ran kept that entry. -/
theorem failed_main_thread_stays_registered (env : Env) (inv : Invocation) (o : Outcome)
    (ho : main env inv = some o) :
    (∀ (h : HostState) (u : SceUID) (t : ThreadStatePtr),
      o.host = some h →
      (host_after_init env).kernel.threads.find u = some t →
      (∀ (nid : Nat) (x : HostState),
        (⟨.call_import nid (main_thread_id env inv), some x⟩ : Step) ∈ o.trace →
        x.kernel.threads.find u = some t →
        (env.call_import x nid (main_thread_id env inv)).kernel.threads.find u = some t) →
      h.kernel.threads.find u = some t) ∧
    (∀ mt : ThreadStatePtr, Event.run_thread mt ∈ o.events →
      (run_result env inv mt).1 = false →
      o.code = .RunThreadFailed ∧
      o.code.toInt ≠ 0 ∧
      Event.SDL_ShowSimpleMessageBox SDL_MESSAGEBOX_ERROR "Error" "Failed to run main thread."
        (run_result env inv mt).2.1.window ∈ o.events ∧
      o.host = some (run_result env inv mt).2.1 ∧
      ((host_after_init env).kernel.next_uid_unregistered = true →
        (∀ s ∈ o.trace, s.ev = .run_thread mt →
          ∃ h, s.host = some h ∧
            h.kernel.threads.find (main_thread_id env inv) = some mt) ∧
        ((∀ (nid : Nat) (x : HostState),
            (⟨.call_import nid (main_thread_id env inv), some x⟩ : Step) ∈ o.trace →
            x.kernel.threads.find (main_thread_id env inv) = some mt →
            (env.call_import x nid (main_thread_id env inv)).kernel.threads.find
              (main_thread_id env inv) = some mt) →
          ∃ h, o.host = some h ∧
            h.kernel.threads.find (main_thread_id env inv) = some mt))) := by
  constructor
  · intro x u t hx hu hkeep
    have hrun : ∀ mt,
        (∀ s ∈ (run_result env inv mt).2.2, s ∈ o.trace) →
        (run_result env inv mt).2.1.kernel.threads.find u = some t := by
      intro mt hsub
      refine run_thread_keeps_entry env ⟨main_thread_id env inv⟩ u t _ _ ?_
        (fun nid y hy => hkeep nid y (hsub _ hy))
      simpa [host_at_run, host_after_emplace] using
        find_emplace_of_found (host_at_emplace env inv).kernel.threads (main_thread_id env inv)
          u mt t hu
    rcases main_cases env inv o ho with ⟨a0, h, ha, rfl⟩ | ⟨h, hs, rfl⟩ | ⟨h, hs, hi, rfl⟩ |
      ⟨h, hs, hi, hl, rfl⟩ | ⟨h, hs, hi, hl, ht, rfl⟩ | ⟨mt, h, hs, hi, hl, ht, hr, rfl⟩ |
      ⟨mt, h, hs, hi, hl, ht, hr, rfl⟩
    · cases hx
    · cases hx
    · cases hx; exact hu
    · cases hx; exact hu
    · cases hx; exact hu
    · cases hx
      exact hrun mt (fun s hs => by simp [hs])
    · cases hx
      exact hrun mt (fun s hs => by simp [hs])
  · intro mt hcall hr
    rcases outcome_of_run env inv o ho mt hcall with ⟨-, ho2⟩ | ⟨hr2, -⟩
    · have hsub : ∀ s ∈ (run_result env inv mt).2.2, s ∈ o.trace := by
        intro s hs
        rw [ho2]
        simp [hs]
      refine ⟨by rw [ho2], by rw [ho2]; simp [ExitCode.toInt], ?_, by rw [ho2], ?_⟩
      · rw [ho2]
        simp only [Outcome.events, List.map_append, error_events, List.mem_append]
        refine Or.inl (Or.inr ?_)
        split <;> simp
      · intro hinv
        have hat := (registry_at_run env inv mt hinv).2
        refine ⟨fun s hs hse => ⟨_, snapshot_on_run env inv o ho mt hcall
          (.run_thread mt) (host_at_run env inv mt) rfl (by intro nid u; simp)
          (by simp [steps_to_init_thread, steps_register_and_run]) s hs hse, hat⟩,
          fun hkeep => ⟨_, by rw [ho2], ?_⟩⟩
        exact run_thread_keeps_entry env ⟨main_thread_id env inv⟩ _ mt _ _ hat
          (fun nid y hy => hkeep nid y (hsub _ hy))
    · rw [hr] at hr2
      cases hr2

/-- C8 (amended) at `sample_env_selective`, whose dispatcher keeps the registry
only on the one import the guest calls: thread 9 is still found under UID 0
when `main` returns `RunThreadFailed`. -/
theorem failed_main_thread_stays_registered_witness :
    (run_result sample_env_selective sample_invocation 9).1 = false ∧
    (host_after_init sample_env_selective).kernel.next_uid_unregistered = true ∧
    ∃ o, main sample_env_selective sample_invocation = some o ∧
      Event.run_thread 9 ∈ o.events ∧
      o.code = .RunThreadFailed ∧
      ∃ h, o.host = some h ∧
        h.kernel.threads.find (main_thread_id sample_env_selective sample_invocation) =
          some 9 :=
  ⟨by decide, by decide,
   (main sample_env_selective sample_invocation).get (by decide), by decide, by decide,
   ((failed_main_thread_stays_registered sample_env_selective sample_invocation
      ((main sample_env_selective sample_invocation).get (by decide)) (by decide)).2 9
      (by decide) (by decide)).1,
   ((((failed_main_thread_stays_registered sample_env_selective sample_invocation
      ((main sample_env_selective sample_invocation).get (by decide)) (by decide)).2 9
      (by decide) (by decide)).2.2.2.2 (by decide)).2
      (fun nid x hmem hx => by
        have hall : (((main sample_env_selective sample_invocation).get (by decide)).trace.all
            (fun s => match s.ev, s.host with
              | .call_import n u, some y =>
                decide (y.kernel.threads.find 0 = some 9 →
                  (sample_env_selective.call_import y n u).kernel.threads.find 0 = some 9)
              | _, _ => true)) = true := by decide
        have h1 := List.all_eq_true.1 hall _ hmem
        simp only [decide_eq_true_eq] at h1
        exact h1 hx))⟩

/-! ## Error reporting -/

/-- A thread run samples no ticks and assigns no `t1`. -/
theorem run_thread_no_ticks (env : Env) (inv : Invocation) (mt : ThreadStatePtr) :
    ((run_result env inv mt).2.2.map Step.ev).count .SDL_GetTicks = 0 ∧
    (∀ v, Event.assign_t1 v ∉ (run_result env inv mt).2.2.map Step.ev) ∧
    (∀ t, Event.run_thread t ∉ (run_result env inv mt).2.2.map Step.ev) := by
  refine ⟨?_, ?_, ?_⟩
  · rw [List.count_eq_zero]
    intro hm
    rcases run_thread_events env _ _ _ _ hm with ⟨nid, hn⟩
    cases hn
  · intro v hm
    rcases run_thread_events env _ _ _ _ hm with ⟨nid, hn⟩
    cases hn
  · intro t hm
    rcases run_thread_events env _ _ _ _ hm with ⟨nid, hn⟩
    cases hn

/-- An `error` call samples no ticks and assigns no `t1`. -/
theorem error_no_ticks (env : Env) (message : String) (window : Option Window)
    (host : Option HostState) :
    ((error env message window host).map Step.ev).count .SDL_GetTicks = 0 ∧
    (∀ v, Event.assign_t1 v ∉ (error env message window host).map Step.ev) ∧
    (∀ t, Event.run_thread t ∉ (error env message window host).map Step.ev) := by
  rw [error_events]
  split <;> simp [List.count_cons]

/-- A run in which `run_thread` is not called samples no ticks and leaves
`host.t1` alone. -/
theorem no_ticks_without_run (env : Env) (inv : Invocation) (o : Outcome)
    (ho : main env inv = some o)
    (hno : ∀ mt, Event.run_thread mt ∉ o.events) :
    o.events.count .SDL_GetTicks = 0 ∧
    (∀ v, Event.assign_t1 v ∉ o.events) ∧
    ∀ h, o.host = some h → h.t1 = (host_after_init env).t1 := by
  rcases main_cases env inv o ho with ⟨a0, h, ha, rfl⟩ | ⟨h, hs, rfl⟩ | ⟨h, hs, hi, rfl⟩ |
    ⟨h, hs, hi, hl, rfl⟩ | ⟨h, hs, hi, hl, ht, rfl⟩ | ⟨mt, h, hs, hi, hl, ht, hr, ho2⟩ |
    ⟨mt, h, hs, hi, hl, ht, hr, ho2⟩
  · have he := error_no_ticks env ("Usage: " ++ a0 ++ " <path to VPK file>") none none
    refine ⟨by simp [Outcome.events, List.count_cons, he.1],
      fun v => by simp [Outcome.events, he.2.1], fun x hx => by cases hx⟩
  · have he := error_no_ticks env "SDL initialisation failed." none none
    refine ⟨by simp [Outcome.events, List.count_cons, he.1],
      fun v => by simp [Outcome.events, he.2.1], fun x hx => by cases hx⟩
  · have he := error_no_ticks env "Host initialisation failed." (host_after_init env).window
      (some (host_after_init env))
    refine ⟨by simp [Outcome.events, List.count_cons, he.1, steps_return],
      fun v => by simp [Outcome.events, he.2.1, steps_return], fun x hx => by cases hx; rfl⟩
  · have he := error_no_ticks env ("Failed to load \"" ++ inv.path ++ "\".")
      (host_after_load env inv).window (some (host_after_load env inv))
    refine ⟨by simp [Outcome.events, List.count_cons, he.1, steps_return],
      fun v => by simp [Outcome.events, he.2.1, steps_return], fun x hx => by cases hx; rfl⟩
  · have he := error_no_ticks env "Failed to init main thread." (host_at_emplace env inv).window
      (some (host_at_emplace env inv))
    refine ⟨by simp [Outcome.events, List.count_cons, he.1, steps_return, steps_to_init_thread],
      fun v => by simp [Outcome.events, he.2.1, steps_return, steps_to_init_thread],
      fun x hx => by cases hx; rfl⟩
  · exact absurd ((run_thread_called_iff env inv o ho mt).2 ⟨h, hs, hi, hl, ht⟩) (hno mt)
  · exact absurd ((run_thread_called_iff env inv o ho mt).2 ⟨h, hs, hi, hl, ht⟩) (hno mt)

/-- A run in which `run_thread` is called samples the ticks once, assigns them
to `host.t1` and calls `run_thread` next. -/
theorem ticks_before_run (env : Env) (inv : Invocation) (o : Outcome)
    (ho : main env inv = some o) (mt : ThreadStatePtr)
    (hcall : Event.run_thread mt ∈ o.events) :
    o.events.count .SDL_GetTicks = 1 ∧
    ∃ pre post, o.events =
      pre ++ [.SDL_GetTicks, .assign_t1 env.SDL_GetTicks, .run_thread mt] ++ post := by
  have hrun := (run_thread_no_ticks env inv mt).1
  rcases outcome_of_run env inv o ho mt hcall with ⟨-, rfl⟩ | ⟨-, rfl⟩
  · have he := error_no_ticks env "Failed to run main thread."
      (run_result env inv mt).2.1.window (some (run_result env inv mt).2.1)
    refine ⟨by simp [Outcome.events, List.count_cons, he.1, hrun, steps_return,
        steps_to_init_thread, steps_register_and_run],
      (steps_to_init_thread env inv).map Step.ev ++ [.emplace (main_thread_id env inv) mt],
      (run_result env inv mt).2.2.map Step.ev
        ++ (error env "Failed to run main thread." (run_result env inv mt).2.1.window
          (some (run_result env inv mt).2.1)).map Step.ev
        ++ (steps_return .RunThreadFailed (run_result env inv mt).2.1).map Step.ev, ?_⟩
    simp [Outcome.events, steps_register_and_run]
  · refine ⟨by simp [Outcome.events, List.count_cons, hrun, steps_return,
        steps_to_init_thread, steps_register_and_run],
      (steps_to_init_thread env inv).map Step.ev ++ [.emplace (main_thread_id env inv) mt],
      (run_result env inv mt).2.2.map Step.ev
        ++ (steps_return .Success (run_result env inv mt).2.1).map Step.ev, ?_⟩
    simp [Outcome.events, steps_register_and_run]

/-- C10: in every run of `main` that returns, `SDL_GetTicks` is called at most
once, and exactly once precisely when `run_thread` is called; then the sample is
assigned to `host.t1` and `run_thread` is the very next operation, called with
`host.t1` holding the sample; on a run in which `run_thread` is not called `main`
never assigns `host.t1`, which keeps the value `init` left. -/
theorem ticks_sampled_once_at_thread_start (env : Env) (inv : Invocation) (o : Outcome)
    (ho : main env inv = some o) :
    o.events.count .SDL_GetTicks ≤ 1 ∧
    (o.events.count .SDL_GetTicks = 1 ↔ ∃ mt, Event.run_thread mt ∈ o.events) ∧
    (∀ mt, Event.run_thread mt ∈ o.events →
      (∃ pre post, o.events =
        pre ++ [.SDL_GetTicks, .assign_t1 env.SDL_GetTicks, .run_thread mt] ++ post) ∧
      (∀ s ∈ o.trace, s.ev = .run_thread mt →
        s.host.map HostState.t1 = some env.SDL_GetTicks)) ∧
    ((∀ mt, Event.run_thread mt ∉ o.events) →
      (∀ v, Event.assign_t1 v ∉ o.events) ∧
      ∀ h, o.host = some h → h.t1 = (host_after_init env).t1) := by
  have hrun : ∀ mt, Event.run_thread mt ∈ o.events →
      (∃ pre post, o.events =
        pre ++ [.SDL_GetTicks, .assign_t1 env.SDL_GetTicks, .run_thread mt] ++ post) ∧
      (∀ s ∈ o.trace, s.ev = .run_thread mt →
        s.host.map HostState.t1 = some env.SDL_GetTicks) := by
    intro mt hcall
    refine ⟨(ticks_before_run env inv o ho mt hcall).2, fun s hs hse => ?_⟩
    rw [snapshot_on_run env inv o ho mt hcall (.run_thread mt) (host_at_run env inv mt) rfl
      (by intro nid u; simp) (by simp [steps_to_init_thread, steps_register_and_run]) s hs hse]
    rfl
  by_cases hex : ∃ mt, Event.run_thread mt ∈ o.events
  · rcases hex with ⟨mt, hcall⟩
    have h1 := (ticks_before_run env inv o ho mt hcall).1
    exact ⟨by omega, ⟨fun _ => ⟨mt, hcall⟩, fun _ => h1⟩, hrun,
      fun hno => absurd hcall (hno mt)⟩
  · have hno : ∀ mt, Event.run_thread mt ∉ o.events := fun mt hm => hex ⟨mt, hm⟩
    have h0 := no_ticks_without_run env inv o ho hno
    exact ⟨by omega, ⟨fun h1 => by omega, fun hx => absurd hx hex⟩, hrun,
      fun _ => h0.2⟩

/-- C10 at `sample_env` and at `sample_env_load_fails`: one sample right before
the thread is run, none when the loader fails. -/
theorem ticks_sampled_once_at_thread_start_witness :
    (∃ o, main sample_env sample_invocation = some o ∧
      o.events =
        [.cout "Vita3K\n", .SDL_Init 0x2030, .HostState_ctor, .init, .load_vpk "game.vpk",
         .next_uid_post_increment 0, .init_thread 0x81000000 0x100000 false ⟨0⟩, .emplace 0 9,
         .SDL_GetTicks, .assign_t1 5, .run_thread 9, .call_import 0x1234 0,
         .ret .Success, .HostState_dtor, .SDL_Quit] ∧
      o.events.count .SDL_GetTicks ≤ 1) ∧
    (∃ o, main sample_env_load_fails sample_invocation = some o ∧
      o.events.count .SDL_GetTicks = 0 ∧
      ∀ h, o.host = some h → h.t1 = (host_after_init sample_env_load_fails).t1) :=
  ⟨⟨(main sample_env sample_invocation).get (by decide), by decide, by decide,
    (ticks_sampled_once_at_thread_start sample_env sample_invocation
      ((main sample_env sample_invocation).get (by decide)) (by decide)).1⟩,
   ⟨(main sample_env_load_fails sample_invocation).get (by decide), by decide, by decide,
    ((ticks_sampled_once_at_thread_start sample_env_load_fails sample_invocation
      ((main sample_env_load_fails sample_invocation).get (by decide)) (by decide)).2.2.2
      (fun mt hm => by
        rw [show ((main sample_env_load_fails sample_invocation).get (by decide)).events =
          [.cout "Vita3K\n", .SDL_Init 0x2030, .HostState_ctor, .init, .load_vpk "game.vpk",
           .SDL_ShowSimpleMessageBox 16 "Error" "Failed to load \"game.vpk\"." (some 1),
           .cerr "Failed to load \"game.vpk\".\n",
           .ret .ModuleLoadFailed, .HostState_dtor, .SDL_Quit] from by decide] at hm
        simp at hm)).2⟩⟩

end Vita3K
